import Mathlib

/-!
Shallow embedding of the workout-session core of `src/backend/server.py`
(todo-fit-plus-showcase).  MongoDB collections are modelled as lists of rows
appended in insertion order; `find_one` is a first-match scan, `update_one`
rewrites the first matching row, `delete_one` removes the first matching row,
and `delete_many` filters.  Floats (`weight_kg`, volumes) are modelled as ℚ,
python ints as ℤ, datetimes as an integer second count plus an integer UTC
calendar-day number.  Each endpoint handler becomes a function
`DB → … → Except HTTPError (response × DB)`; raising `HTTPException` before a
write corresponds to returning `.error` without producing a new state.
-/

namespace TodoFit

/-- Mirror of FastAPI's HTTPException payload: status code plus detail. -/
structure HTTPError where
  status_code : Nat
  detail : String
deriving DecidableEq, Repr

/-! ## Rows (MongoDB documents) -/

/-- A `users` document (the fields the session core reads and writes). -/
structure UserRow where
  id : Nat
  total_volume_kg : ℚ
  current_streak_days : ℤ
  longest_streak_days : ℤ
  account_level : String
  updated_at : Option ℤ
deriving DecidableEq, Repr

/-- An `exercises` catalog document (only `name` is read by the core). -/
structure ExerciseRow where
  id : Nat
  name : String
deriving DecidableEq, Repr

/-- A `routines` document (fields the session core touches). -/
structure RoutineRow where
  id : Nat
  user_id : Nat
  name : String
  times_completed : ℤ
deriving DecidableEq, Repr

/-- A `routine_exercises` document; optional fields mirror `.get` reads. -/
structure RoutineExerciseRow where
  id : Nat
  routine_id : Nat
  exercise_id : Nat
  exercise_order : ℤ
  sets_planned : Option ℤ
  reps_planned : Option ℤ
  reps_min : Option ℤ
  reps_max : Option ℤ
  target_weight_kg : Option ℚ
  rest_seconds : Option ℤ
deriving DecidableEq, Repr

/-- A `workout_sessions` document.  `session_date` keeps only the UTC
calendar-day number (the code reads it back solely through `.date()`). -/
structure SessionRow where
  id : Nat
  user_id : Nat
  routine_id : Option Nat
  session_date : ℤ
  start_time : ℤ
  end_time : Option ℤ
  duration_minutes : Option ℤ
  total_volume_kg : ℚ
  total_sets : ℤ
  total_reps : ℤ
  is_completed : Bool
  notes : Option String
deriving DecidableEq, Repr

/-- A `session_exercises` document. -/
structure SessionExerciseRow where
  id : Nat
  session_id : Nat
  exercise_id : Nat
  exercise_order : ℤ
  completed_at : Option ℤ
  notes : Option String
deriving DecidableEq, Repr

/-- An `exercise_sets` document. -/
structure SetRow where
  id : Nat
  session_exercise_id : Nat
  session_id : Nat
  exercise_id : Nat
  set_number : ℤ
  reps_completed : ℤ
  weight_kg : ℚ
  rpe : Option ℚ
  is_warmup : Bool
  is_failure : Bool
  is_pr : Bool
  completed_at : ℤ
  notes : Option String
deriving DecidableEq, Repr

/-- A `personal_records` document (natural key user/exercise/pr_type). -/
structure PRRow where
  user_id : Nat
  exercise_id : Nat
  pr_type : String
  value : ℚ
  reps : ℤ
  session_id : Nat
  achieved_at : ℤ
  previous_pr_value : Option ℚ
deriving DecidableEq, Repr

/-- The whole database plus a fresh-ObjectId counter. -/
structure DB where
  users : List UserRow
  exercises : List ExerciseRow
  routines : List RoutineRow
  routine_exercises : List RoutineExerciseRow
  workout_sessions : List SessionRow
  session_exercises : List SessionExerciseRow
  exercise_sets : List SetRow
  personal_records : List PRRow
  nextId : Nat
deriving DecidableEq, Repr

/-! ## Request / response models (pydantic) -/

/-- Pydantic `ExerciseSetCreate` — note: no lower-bound validation on any field. -/
structure ExerciseSetCreate where
  set_number : ℤ
  reps_completed : ℤ
  weight_kg : ℚ
  rpe : Option ℚ
  is_warmup : Bool
  is_failure : Bool
  notes : Option String
deriving DecidableEq, Repr

/-- Request body `AddSetToSession`. -/
structure AddSetToSession where
  exercise_id : Nat
  set_data : ExerciseSetCreate
deriving DecidableEq, Repr

/-- Request body `SessionExerciseCreate`. -/
structure SessionExerciseCreate where
  exercise_id : Nat
  exercise_order : ℤ
deriving DecidableEq, Repr

/-- Request body `WorkoutSessionCreate`. -/
structure WorkoutSessionCreate where
  routine_id : Option Nat
  notes : Option String
deriving DecidableEq, Repr

/-- Response model `ExerciseSetResponse`. -/
structure ExerciseSetResponse where
  id : Nat
  set_number : ℤ
  reps_completed : ℤ
  weight_kg : ℚ
  rpe : Option ℚ
  is_warmup : Bool
  is_failure : Bool
  is_pr : Bool
  completed_at : ℤ
  notes : Option String
deriving DecidableEq, Repr

/-- Response model `SessionExerciseResponse`, including the optional planning data. -/
structure SessionExerciseResponse where
  id : Nat
  exercise_id : Nat
  exercise_name : String
  exercise_order : ℤ
  sets : List ExerciseSetResponse
  completed_at : Option ℤ
  sets_planned : Option ℤ
  reps_planned : Option ℤ
  reps_min : Option ℤ
  reps_max : Option ℤ
  target_weight_kg : Option ℚ
  rest_seconds : Option ℤ
deriving DecidableEq, Repr

/-- Response model `WorkoutSessionResponse`. -/
structure WorkoutSessionResponse where
  id : Nat
  user_id : Nat
  routine_id : Option Nat
  routine_name : Option String
  session_date : ℤ
  start_time : ℤ
  end_time : Option ℤ
  duration_minutes : Option ℤ
  total_volume_kg : ℚ
  total_sets : ℤ
  total_reps : ℤ
  is_completed : Bool
  notes : Option String
  exercises : List SessionExerciseResponse
deriving DecidableEq, Repr

/-- Response of `POST /sessions/{id}/exercises`. -/
structure AddExerciseResponse where
  id : Nat
  exercise_id : Nat
  exercise_name : String
  exercise_order : ℤ
deriving DecidableEq, Repr

/-! ## Mongo-style list helpers -/

/-- Mongo `update_one`: rewrite the first row matching `p` with `f`. -/
def updateFirst (p : α → Bool) (f : α → α) : List α → List α
  | [] => []
  | x :: xs => if p x then f x :: xs else x :: updateFirst p f xs

/-- Mongo `delete_one`: remove the first row matching `p`. -/
def removeFirst (p : α → Bool) : List α → List α
  | [] => []
  | x :: xs => if p x then xs else x :: removeFirst p xs

/-- Last match wins, as in the python dict comprehension
`\x7bse["exercise_id"]: se for se in session_exercises\x7d`. -/
def findLast? (p : α → Bool) : List α → Option α
  | [] => none
  | x :: xs => match findLast? p xs with
    | some y => some y
    | none => if p x then some x else none

/-- Stable insertion used by `sortOn` (ties keep their original order,
matching a stable ascending Mongo sort). -/
def insertSorted (key : α → ℤ) (x : α) : List α → List α
  | [] => [x]
  | y :: ys => if key x ≤ key y then x :: y :: ys else y :: insertSorted key x ys

/-- Stable ascending sort by an integer key (Mongo `.sort(field, 1)`). -/
def sortOn (key : α → ℤ) : List α → List α
  | [] => []
  | x :: xs => insertSorted key x (sortOn key xs)

/-! ## Shared lookups -/

/-- Auth dependency `get_current_user`: resolve the authenticated user document. -/
def findUser (db : DB) (uid : Nat) : Option UserRow :=
  db.users.find? (fun u => u.id == uid)

/-- The session lookup every session endpoint performs:
`find_one(\x7b"_id": session_id, "user_id": user_id\x7d)`. -/
def findSession (db : DB) (sid uid : Nat) : Option SessionRow :=
  db.workout_sessions.find? (fun s => s.id == sid && s.user_id == uid)

/-- Lookup `personal_records.find_one(\x7buser, exercise, "MAX_WEIGHT"\x7d)`. -/
def findMaxWeightPR (db : DB) (uid eid : Nat) : Option PRRow :=
  db.personal_records.find?
    (fun r => r.user_id == uid && r.exercise_id == eid && r.pr_type == "MAX_WEIGHT")

/-- Upsert of `personal_records.update_one(filter, set, upsert=True)`:
rewrite the first row matching the natural key, else append. -/
def upsertMaxWeightPR (db : DB) (uid eid : Nat) (f : PRRow → PRRow)
    (fresh : PRRow) : DB :=
  let isKey : PRRow → Bool :=
    fun r => r.user_id == uid && r.exercise_id == eid && r.pr_type == "MAX_WEIGHT"
  if db.personal_records.any isKey then
    { db with personal_records := updateFirst isKey f db.personal_records }
  else
    { db with personal_records := db.personal_records ++ [fresh] }

/-! ## Endpoint: POST /sessions/\x7bid\x7d/sets (add_set_to_session) -/

/-- Handler `add_set_to_session`: get-or-create the session exercise, run the
MAX_WEIGHT PR check, insert the set row, then `$inc` the session totals for
non-warmup sets. -/
def add_set_to_session (db : DB) (uid sid : Nat) (set_data : AddSetToSession)
    (now : ℤ) : Except HTTPError (ExerciseSetResponse × DB) :=
  match findUser db uid with
  | none => .error ⟨401, "User not found"⟩
  | some _current_user =>
  match findSession db sid uid with
  | none => .error ⟨404, "Session not found"⟩
  | some session =>
  if session.is_completed then .error ⟨400, "Session already completed"⟩ else
  -- get or create session exercise
  let afterSE : SessionExerciseRow × DB → Except HTTPError (ExerciseSetResponse × DB) :=
    fun (session_exercise, db1) =>
      let d := set_data.set_data
      -- Calculate volume for this set
      let set_volume : ℚ := d.weight_kg * (d.reps_completed : ℚ)
      -- Check for PR
      let existing_pr := findMaxWeightPR db1 uid set_data.exercise_id
      let is_pr : Bool :=
        if d.is_warmup then false
        else match existing_pr with
          | none => true
          | some r => decide (r.value < d.weight_kg)
      let db2 :=
        if d.is_warmup then db1
        else if is_pr then
          upsertMaxWeightPR db1 uid set_data.exercise_id
            (fun r => { r with
              value := d.weight_kg
              reps := d.reps_completed
              session_id := sid
              achieved_at := now
              previous_pr_value := (existing_pr.map (fun p => p.value)) })
            { user_id := uid
              exercise_id := set_data.exercise_id
              pr_type := "MAX_WEIGHT"
              value := d.weight_kg
              reps := d.reps_completed
              session_id := sid
              achieved_at := now
              previous_pr_value := (existing_pr.map (fun p => p.value)) }
        else db1
      -- Create the set
      let newSet : SetRow :=
        { id := db2.nextId
          session_exercise_id := session_exercise.id
          session_id := sid
          exercise_id := set_data.exercise_id
          set_number := d.set_number
          reps_completed := d.reps_completed
          weight_kg := d.weight_kg
          rpe := d.rpe
          is_warmup := d.is_warmup
          is_failure := d.is_failure
          is_pr := is_pr
          completed_at := now
          notes := d.notes }
      let db3 := { db2 with
        exercise_sets := db2.exercise_sets ++ [newSet]
        nextId := db2.nextId + 1 }
      -- Update session totals (only for working sets, not warmups)
      let incTotals : SessionRow → SessionRow := fun s =>
        { s with
          total_volume_kg := s.total_volume_kg + set_volume
          total_sets := s.total_sets + 1
          total_reps := s.total_reps + d.reps_completed }
      let db4 :=
        if d.is_warmup then db3
        else { db3 with workout_sessions :=
                updateFirst (fun s => s.id == sid) incTotals db3.workout_sessions }
      .ok ({ id := newSet.id
             set_number := d.set_number
             reps_completed := d.reps_completed
             weight_kg := d.weight_kg
             rpe := d.rpe
             is_warmup := d.is_warmup
             is_failure := d.is_failure
             is_pr := is_pr
             completed_at := now
             notes := d.notes }, db4)
  match db.session_exercises.find?
      (fun se => se.session_id == sid && se.exercise_id == set_data.exercise_id) with
  | some se => afterSE (se, db)
  | none =>
    match db.exercises.find? (fun e => e.id == set_data.exercise_id) with
    | none => .error ⟨404, "Exercise not found"⟩
    | some _exercise =>
      let exercise_count := db.session_exercises.countP (fun se => se.session_id == sid)
      let se : SessionExerciseRow :=
        { id := db.nextId
          session_id := sid
          exercise_id := set_data.exercise_id
          exercise_order := (exercise_count : ℤ) + 1
          completed_at := none
          notes := none }
      afterSE (se, { db with
        session_exercises := db.session_exercises ++ [se]
        nextId := db.nextId + 1 })

/-! ## Endpoint: PUT /sessions/\x7bid\x7d/sets/\x7bset_id\x7d -/

/-- Handler `update_set_in_session`: overwrite the editable fields of the set row and
apply the volume/rep delta to the session totals (`total_sets` is never
adjusted here). -/
def update_set_in_session (db : DB) (uid sid set_id : Nat)
    (set_data : ExerciseSetCreate) : Except HTTPError (ExerciseSetResponse × DB) :=
  match findUser db uid with
  | none => .error ⟨401, "User not found"⟩
  | some _current_user =>
  match findSession db sid uid with
  | none => .error ⟨404, "Session not found"⟩
  | some session =>
  if session.is_completed then .error ⟨400, "Cannot update sets in completed session"⟩ else
  match db.exercise_sets.find? (fun s => s.id == set_id) with
  | none => .error ⟨404, "Set not found"⟩
  | some existing_set =>
  -- Calculate volume difference for session totals
  let old_volume : ℚ :=
    if existing_set.is_warmup then 0
    else existing_set.weight_kg * (existing_set.reps_completed : ℚ)
  let new_volume : ℚ :=
    if set_data.is_warmup then 0
    else set_data.weight_kg * (set_data.reps_completed : ℚ)
  let volume_diff := new_volume - old_volume
  let old_reps : ℤ := if existing_set.is_warmup then 0 else existing_set.reps_completed
  let new_reps : ℤ := if set_data.is_warmup then 0 else set_data.reps_completed
  let reps_diff := new_reps - old_reps
  -- Update the set
  let updated_set : SetRow := { existing_set with
    reps_completed := set_data.reps_completed
    weight_kg := set_data.weight_kg
    rpe := set_data.rpe
    is_warmup := set_data.is_warmup
    is_failure := set_data.is_failure
    notes := set_data.notes }
  let sets' := updateFirst (fun s => s.id == set_id) (fun _ => updated_set) db.exercise_sets
  let db1 := { db with exercise_sets := sets' }
  -- Update session totals if needed
  let incTotals : SessionRow → SessionRow := fun s =>
    { s with
      total_volume_kg := s.total_volume_kg + volume_diff
      total_reps := s.total_reps + reps_diff }
  let db2 :=
    if volume_diff ≠ 0 ∨ reps_diff ≠ 0 then
      { db1 with workout_sessions :=
          updateFirst (fun s => s.id == sid) incTotals db1.workout_sessions }
    else db1
  .ok ({ id := updated_set.id
         set_number := updated_set.set_number
         reps_completed := updated_set.reps_completed
         weight_kg := updated_set.weight_kg
         rpe := updated_set.rpe
         is_warmup := updated_set.is_warmup
         is_failure := updated_set.is_failure
         is_pr := updated_set.is_pr
         completed_at := updated_set.completed_at
         notes := updated_set.notes }, db2)

/-! ## Endpoint: DELETE /sessions/\x7bid\x7d/sets/\x7bset_id\x7d -/

/-- Handler `delete_set_from_session`: remove the set row; subtract its contribution
from the totals only when the computed volume or rep count is positive. -/
def delete_set_from_session (db : DB) (uid sid set_id : Nat) :
    Except HTTPError DB :=
  match findUser db uid with
  | none => .error ⟨401, "User not found"⟩
  | some _current_user =>
  match findSession db sid uid with
  | none => .error ⟨404, "Session not found"⟩
  | some session =>
  if session.is_completed then .error ⟨400, "Cannot delete sets from completed session"⟩ else
  match db.exercise_sets.find? (fun s => s.id == set_id) with
  | none => .error ⟨404, "Set not found"⟩
  | some existing_set =>
  -- Calculate volume to subtract (only if not warmup)
  let volume_to_subtract : ℚ :=
    if existing_set.is_warmup then 0
    else existing_set.weight_kg * (existing_set.reps_completed : ℚ)
  let reps_to_subtract : ℤ :=
    if existing_set.is_warmup then 0 else existing_set.reps_completed
  -- Delete the set
  let sets' := removeFirst (fun s => s.id == set_id) db.exercise_sets
  let db1 := { db with exercise_sets := sets' }
  -- Update session totals
  let decTotals : SessionRow → SessionRow := fun s =>
    { s with
      total_volume_kg := s.total_volume_kg - volume_to_subtract
      total_sets := s.total_sets - 1
      total_reps := s.total_reps - reps_to_subtract }
  let db2 :=
    if 0 < volume_to_subtract ∨ 0 < reps_to_subtract then
      { db1 with workout_sessions :=
          updateFirst (fun s => s.id == sid) decTotals db1.workout_sessions }
    else db1
  .ok db2

/-! ## Endpoint: POST /sessions/\x7bid\x7d/exercises -/

/-- Handler `add_exercise_to_session`: manual roster entry, rejected when the
exercise is already present in the session. -/
def add_exercise_to_session (db : DB) (uid sid : Nat)
    (exercise_data : SessionExerciseCreate) : Except HTTPError (AddExerciseResponse × DB) :=
  match findUser db uid with
  | none => .error ⟨401, "User not found"⟩
  | some _current_user =>
  match findSession db sid uid with
  | none => .error ⟨404, "Session not found"⟩
  | some session =>
  if session.is_completed then .error ⟨400, "Cannot add exercises to completed session"⟩ else
  match db.exercises.find? (fun e => e.id == exercise_data.exercise_id) with
  | none => .error ⟨404, "Exercise not found"⟩
  | some exercise =>
  if db.session_exercises.any
      (fun se => se.session_id == sid && se.exercise_id == exercise_data.exercise_id) then
    .error ⟨400, "Exercise already in this session"⟩
  else
    let row : SessionExerciseRow :=
      { id := db.nextId
        session_id := sid
        exercise_id := exercise_data.exercise_id
        exercise_order := exercise_data.exercise_order
        completed_at := none
        notes := none }
    let db' := { db with
      session_exercises := db.session_exercises ++ [row]
      nextId := db.nextId + 1 }
    .ok ({ id := row.id
           exercise_id := exercise_data.exercise_id
           exercise_name := exercise.name
           exercise_order := exercise_data.exercise_order }, db')

/-! ## Roster assembly shared by get_session and start_workout_session -/

/-- View of one stored set as an `ExerciseSetResponse`. -/
def setResponseOfRow (s : SetRow) : ExerciseSetResponse :=
  { id := s.id
    set_number := s.set_number
    reps_completed := s.reps_completed
    weight_kg := s.weight_kg
    rpe := s.rpe
    is_warmup := s.is_warmup
    is_failure := s.is_failure
    is_pr := s.is_pr
    completed_at := s.completed_at
    notes := s.notes }

/-- The sets of one session exercise, sorted by `set_number` and truncated to
20 rows (`.to_list(20)`). -/
def setsOfSessionExercise (db : DB) (seId : Nat) : List ExerciseSetResponse :=
  ((sortOn (fun s => s.set_number)
      (db.exercise_sets.filter (fun s => s.session_exercise_id == seId))).take 20).map
    setResponseOfRow

/-- The routine's planned exercises, sorted by order and truncated to 50
rows (`.to_list(50)`). -/
def routineExercisesOf (db : DB) (rid : Nat) : List RoutineExerciseRow :=
  (sortOn (fun r => r.exercise_order)
      (db.routine_exercises.filter (fun r => r.routine_id == rid))).take 50

/-- The session's exercise rows, sorted by order and truncated to 50 rows. -/
def sessionExercisesOf (db : DB) (sid : Nat) : List SessionExerciseRow :=
  (sortOn (fun se => se.exercise_order)
      (db.session_exercises.filter (fun se => se.session_id == sid))).take 50

/-- Roster entry built purely from a routine exercise (no logged sets):
empty set list plus the routine's planning numbers. -/
def routineEntry (rex : RoutineExerciseRow) (exercise : ExerciseRow) :
    SessionExerciseResponse :=
  { id := rex.id
    exercise_id := rex.exercise_id
    exercise_name := exercise.name
    exercise_order := rex.exercise_order
    sets := []
    completed_at := none
    sets_planned := rex.sets_planned
    reps_planned := rex.reps_planned
    reps_min := rex.reps_min
    reps_max := rex.reps_max
    target_weight_kg := rex.target_weight_kg
    rest_seconds := some (rex.rest_seconds.getD 90) }

/-- The routine-seeding loop (used when no `SessionExercise` rows exist yet
and by session start): one entry per planned exercise found in the catalog. -/
def rosterFromRoutineOnly (db : DB) : List RoutineExerciseRow → List SessionExerciseResponse
  | [] => []
  | rex :: rest =>
    match db.exercises.find? (fun e => e.id == rex.exercise_id) with
    | none => rosterFromRoutineOnly db rest
    | some exercise => routineEntry rex exercise :: rosterFromRoutineOnly db rest

/-- The merge loop of `get_session` for a routine session: iterate the
routine's exercises, enriching each with the matching session exercise and
its sets when one exists.  Session exercises not referenced by the routine
produce no entry. -/
def rosterMerged (db : DB) (ses : List SessionExerciseRow) :
    List RoutineExerciseRow → List SessionExerciseResponse
  | [] => []
  | rex :: rest =>
    match db.exercises.find? (fun e => e.id == rex.exercise_id) with
    | none => rosterMerged db ses rest
    | some exercise =>
      match findLast? (fun se => se.exercise_id == rex.exercise_id) ses with
      | some se =>
        { id := se.id
          exercise_id := rex.exercise_id
          exercise_name := exercise.name
          exercise_order := rex.exercise_order
          sets := setsOfSessionExercise db se.id
          completed_at := se.completed_at
          sets_planned := rex.sets_planned
          reps_planned := rex.reps_planned
          reps_min := rex.reps_min
          reps_max := rex.reps_max
          target_weight_kg := rex.target_weight_kg
          rest_seconds := some (rex.rest_seconds.getD 90) } :: rosterMerged db ses rest
      | none => routineEntry rex exercise :: rosterMerged db ses rest

/-- The no-routine loop of `get_session`: one entry per session exercise,
with no planning data, name defaulting to "Unknown". -/
def rosterAdHoc (db : DB) : List SessionExerciseRow → List SessionExerciseResponse
  | [] => []
  | se :: rest =>
    let exercise_name :=
      match db.exercises.find? (fun e => e.id == se.exercise_id) with
      | some e => e.name
      | none => "Unknown"
    { id := se.id
      exercise_id := se.exercise_id
      exercise_name := exercise_name
      exercise_order := se.exercise_order
      sets := setsOfSessionExercise db se.id
      completed_at := se.completed_at
      sets_planned := none
      reps_planned := none
      reps_min := none
      reps_max := none
      target_weight_kg := none
      rest_seconds := none } :: rosterAdHoc db rest

/-! ## Endpoint: GET /sessions/\x7bid\x7d -/

/-- Handler `get_session`: the full session response with the merged roster. -/
def get_session (db : DB) (uid sid : Nat) : Except HTTPError WorkoutSessionResponse :=
  match findUser db uid with
  | none => .error ⟨401, "User not found"⟩
  | some _current_user =>
  match findSession db sid uid with
  | none => .error ⟨404, "Session not found"⟩
  | some session =>
  let routine_name : Option String :=
    match session.routine_id with
    | some rid => (db.routines.find? (fun r => r.id == rid)).map (fun r => r.name)
    | none => none
  let session_exercises := sessionExercisesOf db sid
  let exercises_response : List SessionExerciseResponse :=
    match session.routine_id with
    | some rid =>
      if session_exercises.isEmpty then
        rosterFromRoutineOnly db (routineExercisesOf db rid)
      else
        rosterMerged db session_exercises (routineExercisesOf db rid)
    | none => rosterAdHoc db session_exercises
  .ok { id := session.id
        user_id := session.user_id
        routine_id := session.routine_id
        routine_name := routine_name
        session_date := session.session_date
        start_time := session.start_time
        end_time := session.end_time
        duration_minutes := session.duration_minutes
        total_volume_kg := session.total_volume_kg
        total_sets := session.total_sets
        total_reps := session.total_reps
        is_completed := session.is_completed
        notes := session.notes
        exercises := exercises_response }

/-! ## Endpoint: POST /sessions -/

/-- Handler `start_workout_session`: create an ACTIVE session; seed the response
roster from the routine only when the reference resolves and is owned by the
caller, otherwise degrade silently to an empty roster. -/
def start_workout_session (db : DB) (uid : Nat) (session_data : WorkoutSessionCreate)
    (now nowDay : ℤ) : Except HTTPError (WorkoutSessionResponse × DB) :=
  match findUser db uid with
  | none => .error ⟨401, "User not found"⟩
  | some _current_user =>
  let seeded : Option String × List SessionExerciseResponse :=
    match session_data.routine_id with
    | none => (none, [])
    | some rid =>
      match db.routines.find? (fun r => r.id == rid && r.user_id == uid) with
      | none => (none, [])
      | some routine =>
        (some routine.name, rosterFromRoutineOnly db (routineExercisesOf db rid))
  let session : SessionRow :=
    { id := db.nextId
      user_id := uid
      routine_id := session_data.routine_id
      session_date := nowDay
      start_time := now
      end_time := none
      duration_minutes := none
      total_volume_kg := 0
      total_sets := 0
      total_reps := 0
      is_completed := false
      notes := session_data.notes }
  let db' := { db with
    workout_sessions := db.workout_sessions ++ [session]
    nextId := db.nextId + 1 }
  .ok ({ id := session.id
         user_id := uid
         routine_id := session_data.routine_id
         routine_name := seeded.1
         session_date := nowDay
         start_time := now
         end_time := none
         duration_minutes := none
         total_volume_kg := 0
         total_sets := 0
         total_reps := 0
         is_completed := false
         notes := session_data.notes
         exercises := seeded.2 }, db')

/-! ## Endpoint: POST /sessions/\x7bid\x7d/complete -/

/-- The date of the user's most recently completed other session: the code
issues `find_one` sorted by `session_date` descending and reads only its
date, which is the maximum date among the matches. -/
def maxDate? : List SessionRow → Option ℤ
  | [] => none
  | s :: rest =>
    match maxDate? rest with
    | none => some s.session_date
    | some d => some (if s.session_date < d then d else s.session_date)

/-- Date of the most recent completed session of `uid` other than `sid`. -/
def lastCompletedDate (db : DB) (uid sid : Nat) : Option ℤ :=
  maxDate? (db.workout_sessions.filter
    (fun s => s.user_id == uid && s.is_completed && !(s.id == sid)))

/-- The five-tier account-level threshold chain of
`complete_workout_session`. -/
def computeAccountLevel (new_total : ℚ) : String :=
  if 500000 ≤ new_total then "Elite"
  else if 150000 ≤ new_total then "Advanced"
  else if 50000 ≤ new_total then "Intermediate"
  else if 10000 ≤ new_total then "Beginner"
  else "Novice"

/-- The streak rule of `complete_workout_session`, on the streak value read
at request start. -/
def streakAfter (last_date : Option ℤ) (nowDay current_streak0 : ℤ) : ℤ :=
  match last_date with
  | some last =>
    let days_diff := nowDay - last
    if days_diff = 1 then current_streak0 + 1
    else if 1 < days_diff then 1
    else current_streak0
  | none => 1

/-- Handler `complete_workout_session`: stamp end time and duration, flip
`is_completed`, recompute the user streak and account level, bump the
routine counter, and return the full session view. -/
def complete_workout_session (db : DB) (uid sid : Nat) (now nowDay : ℤ) :
    Except HTTPError (WorkoutSessionResponse × DB) :=
  match findUser db uid with
  | none => .error ⟨401, "User not found"⟩
  | some current_user =>
  match findSession db sid uid with
  | none => .error ⟨404, "Session not found"⟩
  | some session =>
  if session.is_completed then .error ⟨400, "Session already completed"⟩ else
  -- Calculate duration
  let duration : ℤ := (now - session.start_time) / 60
  -- Update session
  let markDone : SessionRow → SessionRow := fun s =>
    { s with end_time := some now, duration_minutes := some duration, is_completed := true }
  let sessions1 := updateFirst (fun s => s.id == sid) markDone db.workout_sessions
  let db1 := { db with workout_sessions := sessions1 }
  -- Update user's total volume and streak
  let total_volume := session.total_volume_kg
  let last_date := lastCompletedDate db1 uid sid
  let current_streak := streakAfter last_date nowDay current_user.current_streak_days
  let longest_streak :=
    if current_user.longest_streak_days < current_streak then current_streak
    else current_user.longest_streak_days
  -- Update routine times_completed
  let bumpRoutine : RoutineRow → RoutineRow := fun r =>
    { r with times_completed := r.times_completed + 1 }
  let db2 :=
    match session.routine_id with
    | some rid =>
      { db1 with routines := updateFirst (fun r => r.id == rid) bumpRoutine db1.routines }
    | none => db1
  -- Update user stats
  let updUser : UserRow → UserRow := fun u =>
    { u with
      total_volume_kg := u.total_volume_kg + total_volume
      current_streak_days := current_streak
      longest_streak_days := longest_streak
      updated_at := some now }
  let db3 := { db2 with users := updateFirst (fun u => u.id == uid) updUser db2.users }
  -- Calculate new account level
  let new_total := current_user.total_volume_kg + total_volume
  let new_level := computeAccountLevel new_total
  let setLevel : UserRow → UserRow := fun u => { u with account_level := new_level }
  let db4 :=
    if new_level ≠ current_user.account_level then
      { db3 with users := updateFirst (fun u => u.id == uid) setLevel db3.users }
    else db3
  match get_session db4 uid sid with
  | .ok resp => .ok (resp, db4)
  | .error e => .error e

/-! ## Endpoint: DELETE /sessions/\x7bid\x7d -/

/-- Handler `delete_workout_session`: delete all child set rows, all session
exercises, then the session itself.  (There is no `is_completed` guard.) -/
def delete_workout_session (db : DB) (uid sid : Nat) :
    Except HTTPError (String × DB) :=
  match findUser db uid with
  | none => .error ⟨401, "User not found"⟩
  | some _current_user =>
  match findSession db sid uid with
  | none => .error ⟨404, "Session not found"⟩
  | some _session =>
  -- Delete all exercise sets for this session
  let db1 := { db with exercise_sets :=
    db.exercise_sets.filter (fun s => !(s.session_id == sid)) }
  -- Delete all session exercises
  let db2 := { db1 with session_exercises :=
    db1.session_exercises.filter (fun se => !(se.session_id == sid)) }
  -- Delete the session
  let sessions3 := removeFirst (fun s => s.id == sid) db2.workout_sessions
  let db3 := { db2 with workout_sessions := sessions3 }
  .ok ("Workout session deleted successfully", db3)

/-! ## Ledger view used by the aggregate-consistency claims -/

/-- The non-warmup exercise-set rows currently stored for a session. -/
def nonWarmupSets (db : DB) (sid : Nat) : List SetRow :=
  db.exercise_sets.filter (fun s => s.session_id == sid && !s.is_warmup)

/-- Sum of `weight_kg * reps_completed` over the non-warmup rows. -/
def ledgerVolume (db : DB) (sid : Nat) : ℚ :=
  (nonWarmupSets db sid).foldr (fun s acc => s.weight_kg * (s.reps_completed : ℚ) + acc) 0

/-- Count of non-warmup rows. -/
def ledgerSetCount (db : DB) (sid : Nat) : ℤ :=
  ((nonWarmupSets db sid).length : ℤ)

/-- Sum of `reps_completed` over the non-warmup rows. -/
def ledgerReps (db : DB) (sid : Nat) : ℤ :=
  (nonWarmupSets db sid).foldr (fun s acc => s.reps_completed + acc) 0

/-! ## Execution helpers for concrete traces -/

/-- True exactly when a handler call succeeded. -/
def isOkResult (r : Except HTTPError α) : Bool :=
  match r with
  | .ok _ => true
  | .error _ => false

/-- The database after a handler that returns a response and a state,
falling back to the input state if the handler failed. -/
def stateOf (r : Except HTTPError (α × DB)) (fallback : DB) : DB :=
  match r with
  | .ok (_, db) => db
  | .error _ => fallback

/-- The database after `delete_set_from_session`, with fallback. -/
def stateOfDelete (r : Except HTTPError DB) (fallback : DB) : DB :=
  match r with
  | .ok db => db
  | .error _ => fallback

/-! ## Concrete databases used by traces and witnesses -/

/-- One user, one catalog exercise, one fresh ACTIVE session. -/
def baseDB : DB :=
  { users := [⟨1, 0, 0, 0, "Novice", none⟩]
    exercises := [⟨10, "Bench"⟩]
    routines := []
    routine_exercises := []
    workout_sessions := [⟨100, 1, none, 0, 0, none, none, 0, 0, 0, false, none⟩]
    session_exercises := []
    exercise_sets := []
    personal_records := []
    nextId := 200 }

/-- One user with a COMPLETED session that still has a child exercise row
and a child set row. -/
def completedDB : DB :=
  { users := [⟨1, 0, 0, 0, "Novice", none⟩]
    exercises := [⟨10, "Bench"⟩]
    routines := []
    routine_exercises := []
    workout_sessions := [⟨100, 1, none, 0, 0, some 3600, some 60, 50, 1, 5, true, none⟩]
    session_exercises := [⟨20, 100, 10, 1, none, none⟩]
    exercise_sets := [⟨30, 20, 100, 10, 1, 5, 10, none, false, false, true, 0, none⟩]
    personal_records := []
    nextId := 200 }

/-! ## The session-mutating operations, packaged for temporal claims -/

/-- The five session-mutating calls named by the completion-is-one-way
property, with their request data. -/
inductive SessionOp where
  | addSet (sid : Nat) (payload : AddSetToSession) (now : ℤ)
  | updateSet (sid set_id : Nat) (d : ExerciseSetCreate)
  | deleteSet (sid set_id : Nat)
  | addExercise (sid : Nat) (d : SessionExerciseCreate)
  | complete (sid : Nat) (now nowDay : ℤ)

/-- Run one session-mutating operation, keeping only the resulting state. -/
def applySessionOp (db : DB) (uid : Nat) : SessionOp → Except HTTPError DB
  | .addSet sid payload now =>
    match add_set_to_session db uid sid payload now with
    | .ok (_, db') => .ok db'
    | .error e => .error e
  | .updateSet sid set_id d =>
    match update_set_in_session db uid sid set_id d with
    | .ok (_, db') => .ok db'
    | .error e => .error e
  | .deleteSet sid set_id => delete_set_from_session db uid sid set_id
  | .addExercise sid d =>
    match add_exercise_to_session db uid sid d with
    | .ok (_, db') => .ok db'
    | .error e => .error e
  | .complete sid now nowDay =>
    match complete_workout_session db uid sid now nowDay with
    | .ok (_, db') => .ok db'
    | .error e => .error e

/-- Between two snapshots of the `workout_sessions` collection: every id
whose rows were all completed still has only completed rows. -/
def CompletedPreserved (old new : List SessionRow) : Prop :=
  ∀ sid : Nat, (∀ s ∈ old, s.id = sid → s.is_completed = true) →
    ∀ s ∈ new, s.id = sid → s.is_completed = true

/-- One user with an ACTIVE session holding one working set (10 kg x 5,
flagged as a PR) and the matching MAX_WEIGHT personal record. -/
def prDB : DB :=
  { users := [⟨1, 0, 0, 0, "Novice", none⟩]
    exercises := [⟨10, "Bench"⟩]
    routines := []
    routine_exercises := []
    workout_sessions := [⟨100, 1, none, 0, 0, none, none, 50, 1, 5, false, none⟩]
    session_exercises := [⟨20, 100, 10, 1, none, none⟩]
    exercise_sets := [⟨30, 20, 100, 10, 1, 5, 10, none, false, false, true, 0, none⟩]
    personal_records := [⟨1, 10, "MAX_WEIGHT", 10, 5, 100, 0, none⟩]
    nextId := 200 }

/-- Response and state of editing set 30 of `prDB` down to 5 kg. -/
def c10run : ExerciseSetResponse × DB :=
  match update_set_in_session prDB 1 100 30 ⟨1, 5, 5, none, false, false, none⟩ with
  | .ok x => x
  | .error _ => (⟨0, 0, 0, 0, none, false, false, false, 0, none⟩, prDB)

/-- State after deleting set 30 of `prDB`. -/
def c10del : DB :=
  stateOfDelete (delete_set_from_session prDB 1 100 30) prDB

/-! ### C1 trace A: non-warmup set with zero reps, added then deleted -/

/-- After adding a non-warmup set of 20 kg x 0 reps (set row id 201). -/
def c1dbA1 : DB :=
  stateOf (add_set_to_session baseDB 1 100 ⟨10, ⟨1, 0, 20, none, false, false, none⟩⟩ 0) baseDB

/-- After deleting that set again. -/
def c1dbA2 : DB :=
  stateOfDelete (delete_set_from_session c1dbA1 1 100 201) c1dbA1

/-! ### C1 trace B: warmup set turned into a working set, then deleted -/

/-- After adding a warmup set of 10 kg x 5 reps (set row id 201). -/
def c1dbB1 : DB :=
  stateOf (add_set_to_session baseDB 1 100 ⟨10, ⟨1, 5, 10, none, true, false, none⟩⟩ 0) baseDB

/-- After editing that set to a non-warmup set (same weight and reps). -/
def c1dbB2 : DB :=
  stateOf (update_set_in_session c1dbB1 1 100 201 ⟨1, 5, 10, none, false, false, none⟩) c1dbB1

/-- After deleting the now-working set. -/
def c1dbB3 : DB :=
  stateOfDelete (delete_set_from_session c1dbB2 1 100 201) c1dbB2

/-! ### C3 trace: negative reps accepted -/

/-- After adding a non-warmup set with `reps_completed = -5` and
`weight_kg = 10` to the fresh active session. -/
def c3db : DB :=
  stateOf (add_set_to_session baseDB 1 100 ⟨10, ⟨1, -5, 10, none, false, false, none⟩⟩ 0) baseDB

/-- Result of logging a 12 kg x 3 working set on `prDB` (current record 10 kg). -/
def c5run : ExerciseSetResponse × DB :=
  match add_set_to_session prDB 1 100 ⟨10, ⟨2, 3, 12, none, false, false, none⟩⟩ 5 with
  | .ok x => x
  | .error _ => (⟨0, 0, 0, 0, none, false, false, false, 0, none⟩, prDB)

/-- Result of completing the fresh session of `baseDB` at day 4. -/
def c6run : WorkoutSessionResponse × DB :=
  match complete_workout_session baseDB 1 100 120 4 with
  | .ok x => x
  | .error _ => (⟨0, 0, none, none, 0, 0, none, none, 0, 0, 0, false, none, []⟩, baseDB)

/-- Session with routine 5 (planned exercise 10) plus an ad-hoc exercise 20
with one logged set. -/
def c8db : DB :=
  { users := [⟨1, 0, 0, 0, "Novice", none⟩]
    exercises := [⟨10, "Bench"⟩, ⟨20, "Squat"⟩]
    routines := [⟨5, 1, "Push day", 0⟩]
    routine_exercises := [⟨6, 5, 10, 1, some 3, some 10, none, none, none, none⟩]
    workout_sessions := [⟨100, 1, some 5, 0, 0, none, none, 50, 1, 5, false, none⟩]
    session_exercises := [⟨7, 100, 20, 1, none, none⟩]
    exercise_sets := [⟨8, 7, 100, 20, 1, 5, 10, none, false, false, false, 0, none⟩]
    personal_records := []
    nextId := 200 }

/-- The `get_session` view of `c8db`. -/
def c8run : WorkoutSessionResponse :=
  match get_session c8db 1 100 with
  | .ok r => r
  | .error _ => ⟨0, 0, none, none, 0, 0, none, none, 0, 0, 0, false, none, []⟩

/-- Like `c8db`, but the routine's exercise 10 also has a matching
session exercise (id 9) with one logged set, next to the ad-hoc
exercise 20. -/
def c8db2 : DB :=
  { users := [⟨1, 0, 0, 0, "Novice", none⟩]
    exercises := [⟨10, "Bench"⟩, ⟨20, "Squat"⟩]
    routines := [⟨5, 1, "Push day", 0⟩]
    routine_exercises := [⟨6, 5, 10, 1, some 3, some 10, none, none, none, none⟩]
    workout_sessions := [⟨100, 1, some 5, 0, 0, none, none, 100, 2, 10, false, none⟩]
    session_exercises := [⟨7, 100, 20, 1, none, none⟩, ⟨9, 100, 10, 2, none, none⟩]
    exercise_sets := [⟨8, 7, 100, 20, 1, 5, 10, none, false, false, false, 0, none⟩,
                      ⟨11, 9, 100, 10, 1, 5, 10, none, false, false, false, 0, none⟩]
    personal_records := []
    nextId := 200 }

/-- The `get_session` view of `c8db2`. -/
def c8run2 : WorkoutSessionResponse :=
  match get_session c8db2 1 100 with
  | .ok r => r
  | .error _ => ⟨0, 0, none, none, 0, 0, none, none, 0, 0, 0, false, none, []⟩

/-! ## Lemmas about the Mongo-style list helpers -/

theorem mem_updateFirst {p : α → Bool} {f : α → α} {l : List α} {y : α}
    (hy : y ∈ updateFirst p f l) : y ∈ l ∨ ∃ x, x ∈ l ∧ y = f x := by
  induction l with
  | nil => simp [updateFirst] at hy
  | cons a as ih =>
    cases hpa : p a with
    | true =>
      simp [updateFirst, hpa] at hy
      rcases hy with h | h
      · exact Or.inr ⟨a, by simp, h⟩
      · exact Or.inl (by simp [h])
    | false =>
      simp [updateFirst, hpa] at hy
      rcases hy with h | h
      · exact Or.inl (by simp [h])
      · rcases ih h with h2 | ⟨x, hx, hfx⟩
        · exact Or.inl (by simp [h2])
        · exact Or.inr ⟨x, by simp [hx], hfx⟩

theorem find?_updateFirst_found {p : α → Bool} {f : α → α} {l : List α} {x : α}
    (hx : l.find? p = some x) (hfx : p (f x) = true) :
    (updateFirst p f l).find? p = some (f x) := by
  induction l with
  | nil => simp at hx
  | cons a as ih =>
    cases hpa : p a with
    | true =>
      simp only [List.find?, hpa, Option.some.injEq] at hx
      subst hx
      simp [updateFirst, hpa, List.find?, hfx]
    | false =>
      simp only [List.find?, hpa] at hx
      simp [updateFirst, hpa, List.find?, ih hx]

theorem find?_append_single_of_none {p : α → Bool} {l : List α} {x : α}
    (h : l.find? p = none) (hx : p x = true) : (l ++ [x]).find? p = some x := by
  induction l with
  | nil => simp [List.find?, hx]
  | cons a as ih =>
    cases hpa : p a with
    | true =>
      simp only [List.find?, hpa] at h
      exact Option.noConfusion h
    | false =>
      simp only [List.find?, hpa] at h
      simpa [List.cons_append, List.find?, hpa] using ih h

theorem find?_append_single_of_some {p : α → Bool} {l : List α} {x y : α}
    (h : l.find? p = some y) : (l ++ [x]).find? p = some y := by
  induction l with
  | nil => simp at h
  | cons a as ih =>
    cases hpa : p a with
    | true =>
      simp only [List.find?, hpa, Option.some.injEq] at h
      subst h
      simp [List.cons_append, List.find?, hpa]
    | false =>
      simp only [List.find?, hpa] at h
      simpa [List.cons_append, List.find?, hpa] using ih h

theorem filter_updateFirst_excluded {p q : α → Bool} {f : α → α} (l : List α)
    (h : ∀ x, q x = true → p x = false ∧ p (f x) = false) :
    (updateFirst q f l).filter p = l.filter p := by
  induction l with
  | nil => rfl
  | cons a as ih =>
    cases hqa : q a with
    | true =>
      simp [updateFirst, hqa, List.filter, (h a hqa).1, (h a hqa).2]
    | false =>
      cases hpa : p a with
      | true => simp [updateFirst, hqa, List.filter, hpa, ih]
      | false => simp [updateFirst, hqa, List.filter, hpa, ih]

theorem countP_removeFirst_of_any {p : α → Bool} (l : List α)
    (h : l.any p = true) :
    (removeFirst p l).countP p = l.countP p - 1 := by
  induction l with
  | nil => simp at h
  | cons a as ih =>
    cases hpa : p a with
    | true =>
      have hrm : removeFirst p (a :: as) = as := by simp [removeFirst, hpa]
      rw [hrm, List.countP_cons_of_pos _ _ hpa]
      omega
    | false =>
      have hrm : removeFirst p (a :: as) = a :: removeFirst p as := by
        simp [removeFirst, hpa]
      have has : as.any p = true := by simpa [List.any_cons, hpa] using h
      rw [hrm, List.countP_cons_of_neg _ _ (by simp [hpa]),
          List.countP_cons_of_neg _ _ (by simp [hpa])]
      exact ih has

theorem any_of_find?_eq_some {p : α → Bool} {l : List α} {x : α}
    (h : l.find? p = some x) : l.any p = true := by
  induction l with
  | nil => simp at h
  | cons a as ih =>
    cases hpa : p a with
    | true => simp [List.any_cons, hpa]
    | false =>
      simp only [List.find?, hpa] at h
      simp [List.any_cons, hpa, ih h]

/-! ## Frame lemmas for the PR upsert -/

@[simp] theorem upsertMaxWeightPR_users (db : DB) (uid eid : Nat) (f fresh) :
    (upsertMaxWeightPR db uid eid f fresh).users = db.users := by
  simp only [upsertMaxWeightPR]; split <;> rfl

@[simp] theorem upsertMaxWeightPR_exercises (db : DB) (uid eid : Nat) (f fresh) :
    (upsertMaxWeightPR db uid eid f fresh).exercises = db.exercises := by
  simp only [upsertMaxWeightPR]; split <;> rfl

@[simp] theorem upsertMaxWeightPR_routines (db : DB) (uid eid : Nat) (f fresh) :
    (upsertMaxWeightPR db uid eid f fresh).routines = db.routines := by
  simp only [upsertMaxWeightPR]; split <;> rfl

@[simp] theorem upsertMaxWeightPR_routine_exercises (db : DB) (uid eid : Nat) (f fresh) :
    (upsertMaxWeightPR db uid eid f fresh).routine_exercises = db.routine_exercises := by
  simp only [upsertMaxWeightPR]; split <;> rfl

@[simp] theorem upsertMaxWeightPR_workout_sessions (db : DB) (uid eid : Nat) (f fresh) :
    (upsertMaxWeightPR db uid eid f fresh).workout_sessions = db.workout_sessions := by
  simp only [upsertMaxWeightPR]; split <;> rfl

@[simp] theorem upsertMaxWeightPR_session_exercises (db : DB) (uid eid : Nat) (f fresh) :
    (upsertMaxWeightPR db uid eid f fresh).session_exercises = db.session_exercises := by
  simp only [upsertMaxWeightPR]; split <;> rfl

@[simp] theorem upsertMaxWeightPR_exercise_sets (db : DB) (uid eid : Nat) (f fresh) :
    (upsertMaxWeightPR db uid eid f fresh).exercise_sets = db.exercise_sets := by
  simp only [upsertMaxWeightPR]; split <;> rfl

@[simp] theorem upsertMaxWeightPR_nextId (db : DB) (uid eid : Nat) (f fresh) :
    (upsertMaxWeightPR db uid eid f fresh).nextId = db.nextId := by
  simp only [upsertMaxWeightPR]; split <;> rfl

/-! ## Preservation of the completed flag -/

theorem completedPreserved_self (l : List SessionRow) : CompletedPreserved l l :=
  fun _ hall => hall

theorem completedPreserved_updateFirst {p : SessionRow → Bool}
    {f : SessionRow → SessionRow}
    (hf : ∀ x, (f x).id = x.id ∧ (x.is_completed = true → (f x).is_completed = true))
    (l : List SessionRow) : CompletedPreserved l (updateFirst p f l) := by
  intro sid hall s' hs' hid
  rcases mem_updateFirst hs' with h | ⟨x, hx, rfl⟩
  · exact hall s' h hid
  · rcases hf x with ⟨hid2, himp⟩
    exact himp (hall x hx (hid2 ▸ hid))

theorem addSet_completedPreserved {st : DB} {u2 s2 : Nat} {p : AddSetToSession}
    {now : ℤ} {resp : ExerciseSetResponse} {st' : DB}
    (h : add_set_to_session st u2 s2 p now = .ok (resp, st')) :
    CompletedPreserved st.workout_sessions st'.workout_sessions := by
  unfold add_set_to_session at h
  split at h
  · exact Except.noConfusion h
  split at h
  · exact Except.noConfusion h
  split at h
  · exact Except.noConfusion h
  split at h
  case _ =>
    -- existing session exercise
    simp only [Except.ok.injEq, Prod.mk.injEq] at h
    obtain ⟨-, hdb⟩ := h
    subst hdb
    simp only [apply_ite (fun d : DB => d.workout_sessions),
      upsertMaxWeightPR_workout_sessions, ite_self]
    split
    · exact completedPreserved_self _
    · apply completedPreserved_updateFirst
      intro x
      exact ⟨rfl, fun hx => hx⟩
  case _ =>
    split at h
    · exact Except.noConfusion h
    simp only [Except.ok.injEq, Prod.mk.injEq] at h
    obtain ⟨-, hdb⟩ := h
    subst hdb
    simp only [apply_ite (fun d : DB => d.workout_sessions),
      upsertMaxWeightPR_workout_sessions, ite_self]
    split
    · exact completedPreserved_self _
    · apply completedPreserved_updateFirst
      intro x
      exact ⟨rfl, fun hx => hx⟩

theorem updateSet_completedPreserved {st : DB} {u2 s2 sd : Nat} {d : ExerciseSetCreate}
    {resp : ExerciseSetResponse} {st' : DB}
    (h : update_set_in_session st u2 s2 sd d = .ok (resp, st')) :
    CompletedPreserved st.workout_sessions st'.workout_sessions := by
  unfold update_set_in_session at h
  repeat' split at h
  all_goals try exact Except.noConfusion h
  all_goals simp only [Except.ok.injEq, Prod.mk.injEq] at h
  all_goals obtain ⟨-, hdb⟩ := h
  all_goals subst hdb
  all_goals repeat' split
  all_goals
    first
    | exact completedPreserved_self _
    | (apply completedPreserved_updateFirst
       intro x
       refine ⟨rfl, fun hx => ?_⟩
       first | exact hx | rfl)

theorem deleteSet_completedPreserved {st : DB} {u2 s2 sd : Nat} {st' : DB}
    (h : delete_set_from_session st u2 s2 sd = .ok st') :
    CompletedPreserved st.workout_sessions st'.workout_sessions := by
  unfold delete_set_from_session at h
  repeat' split at h
  all_goals try exact Except.noConfusion h
  all_goals simp only [Except.ok.injEq] at h
  all_goals subst h
  all_goals repeat' split
  all_goals
    first
    | exact completedPreserved_self _
    | (apply completedPreserved_updateFirst
       intro x
       refine ⟨rfl, fun hx => ?_⟩
       first | exact hx | rfl)

theorem addExercise_completedPreserved {st : DB} {u2 s2 : Nat} {d : SessionExerciseCreate}
    {resp : AddExerciseResponse} {st' : DB}
    (h : add_exercise_to_session st u2 s2 d = .ok (resp, st')) :
    CompletedPreserved st.workout_sessions st'.workout_sessions := by
  unfold add_exercise_to_session at h
  repeat' split at h
  all_goals try exact Except.noConfusion h
  all_goals simp only [Except.ok.injEq, Prod.mk.injEq] at h
  all_goals obtain ⟨-, hdb⟩ := h
  all_goals subst hdb
  all_goals exact completedPreserved_self _

theorem complete_completedPreserved {st : DB} {u2 s2 : Nat} {now nowDay : ℤ}
    {resp : WorkoutSessionResponse} {st' : DB}
    (h : complete_workout_session st u2 s2 now nowDay = .ok (resp, st')) :
    CompletedPreserved st.workout_sessions st'.workout_sessions := by
  unfold complete_workout_session at h
  repeat' split at h
  all_goals try exact Except.noConfusion h
  all_goals simp only [Except.ok.injEq, Prod.mk.injEq] at h
  all_goals repeat' split at h
  all_goals try exact Except.noConfusion h
  all_goals try simp only [Except.ok.injEq, Prod.mk.injEq] at h
  all_goals obtain ⟨-, hdb⟩ := h
  all_goals subst hdb
  all_goals repeat' split
  all_goals
    first
    | exact completedPreserved_self _
    | (apply completedPreserved_updateFirst
       intro x
       refine ⟨rfl, fun hx => ?_⟩
       first | exact hx | rfl)

/-- C1: for an active session, after each add/update/delete-set operation
`total_volume_kg`, `total_sets` and `total_reps` are claimed to equal the
corresponding sums over the non-warmup set rows, never going negative.  The
code violates this: (trace A) deleting a non-warmup set whose volume and
reps are both zero skips every decrement, leaving `total_sets = 1` with an
empty ledger; (trace B) editing a warmup set into a working set never
increments `total_sets`, so the later delete drives `total_sets` to -1. -/
theorem c1_totals_desync_on_failing_traces :
    (isOkResult (delete_set_from_session c1dbA1 1 100 201) = true
      ∧ (findSession c1dbA2 100 1).map (fun s => s.total_sets) = some 1
      ∧ ledgerSetCount c1dbA2 100 = 0)
    ∧ (isOkResult (update_set_in_session c1dbB1 1 100 201 ⟨1, 5, 10, none, false, false, none⟩) = true
      ∧ (findSession c1dbB2 100 1).map (fun s => s.total_sets) = some 0
      ∧ ledgerSetCount c1dbB2 100 = 1
      ∧ (findSession c1dbB3 100 1).map (fun s => s.total_sets) = some (-1)) :=
  of_decide_eq_true (by with_unfolding_all rfl)

/-- C3: a negative `reps_completed` (or `weight_kg`) is claimed to be
rejected before any store mutation.  The code performs no validation: the
request succeeds, the set row is written, a session exercise is created, a
MAX_WEIGHT personal record is upserted, and the session totals go negative. -/
theorem c3_negative_input_is_accepted :
    isOkResult (add_set_to_session baseDB 1 100 ⟨10, ⟨1, -5, 10, none, false, false, none⟩⟩ 0) = true
    ∧ c3db.exercise_sets.length = 1
    ∧ c3db.session_exercises.length = 1
    ∧ c3db.personal_records.length = 1
    ∧ (findSession c3db 100 1).map (fun s => s.total_volume_kg) = some (-50)
    ∧ (findSession c3db 100 1).map (fun s => s.total_reps) = some (-5) :=
  of_decide_eq_true (by with_unfolding_all rfl)

/-! ### C4 counterexample: cancelling a completed session succeeds -/

/-- C4 counterexample: cancellation is claimed to fail with an invalid-state
error on a completed session and delete nothing; on `completedDB` the call
succeeds and deletes the session together with its children. -/
theorem c4_completed_session_cancel_succeeds :
    isOkResult (delete_workout_session completedDB 1 100) = true
    ∧ (stateOf (delete_workout_session completedDB 1 100) completedDB).workout_sessions = []
    ∧ (stateOf (delete_workout_session completedDB 1 100) completedDB).session_exercises = []
    ∧ (stateOf (delete_workout_session completedDB 1 100) completedDB).exercise_sets = [] :=
  of_decide_eq_true (by with_unfolding_all rfl)

/-! ## Claim C2: completion is one-way -/

/-- C2: once a session is completed, every subsequent add_set, update_set,
delete_set, add-exercise and complete call on it fails with a 400
invalid-state error and produces no new state, and no session-mutating
operation ever turns `is_completed` from true back to false. -/
theorem completed_session_is_terminal
    (db : DB) (uid sid : Nat) (user : UserRow) (sess : SessionRow)
    (payload : AddSetToSession) (set_id : Nat) (d : ExerciseSetCreate)
    (exd : SessionExerciseCreate) (now nowDay : ℤ)
    (hu : findUser db uid = some user)
    (hs : findSession db sid uid = some sess)
    (hc : sess.is_completed = true) :
    add_set_to_session db uid sid payload now
        = .error ⟨400, "Session already completed"⟩
    ∧ update_set_in_session db uid sid set_id d
        = .error ⟨400, "Cannot update sets in completed session"⟩
    ∧ delete_set_from_session db uid sid set_id
        = .error ⟨400, "Cannot delete sets from completed session"⟩
    ∧ add_exercise_to_session db uid sid exd
        = .error ⟨400, "Cannot add exercises to completed session"⟩
    ∧ complete_workout_session db uid sid now nowDay
        = .error ⟨400, "Session already completed"⟩
    ∧ ∀ (op : SessionOp) (st st' : DB) (uid2 : Nat),
        applySessionOp st uid2 op = .ok st' →
        (∀ s ∈ st.workout_sessions, s.id = sid → s.is_completed = true) →
        ∀ s ∈ st'.workout_sessions, s.id = sid → s.is_completed = true := by
  refine ⟨?_, ?_, ?_, ?_, ?_, ?_⟩
  · simp [add_set_to_session, hu, hs, hc]
  · simp [update_set_in_session, hu, hs, hc]
  · simp [delete_set_from_session, hu, hs, hc]
  · simp [add_exercise_to_session, hu, hs, hc]
  · simp [complete_workout_session, hu, hs, hc]
  · intro op st st' uid2 hok hall
    cases op with
    | addSet sid2 payload2 now2 =>
      simp only [applySessionOp] at hok
      split at hok
      · rename_i x db2 heq
        simp only [Except.ok.injEq] at hok
        subst hok
        exact addSet_completedPreserved heq sid hall
      · exact Except.noConfusion hok
    | updateSet sid2 set_id2 d2 =>
      simp only [applySessionOp] at hok
      split at hok
      · rename_i x db2 heq
        simp only [Except.ok.injEq] at hok
        subst hok
        exact updateSet_completedPreserved heq sid hall
      · exact Except.noConfusion hok
    | deleteSet sid2 set_id2 =>
      exact deleteSet_completedPreserved hok sid hall
    | addExercise sid2 d2 =>
      simp only [applySessionOp] at hok
      split at hok
      · rename_i x db2 heq
        simp only [Except.ok.injEq] at hok
        subst hok
        exact addExercise_completedPreserved heq sid hall
      · exact Except.noConfusion hok
    | complete sid2 now2 nowDay2 =>
      simp only [applySessionOp] at hok
      split at hok
      · rename_i x db2 heq
        simp only [Except.ok.injEq] at hok
        subst hok
        exact complete_completedPreserved heq sid hall
      · exact Except.noConfusion hok

/-- Witness for `completed_session_is_terminal` at `completedDB`. -/
theorem completed_session_is_terminal_witness :
    (findUser completedDB 1 = some ⟨1, 0, 0, 0, "Novice", none⟩)
    ∧ (findSession completedDB 100 1
        = some ⟨100, 1, none, 0, 0, some 3600, some 60, 50, 1, 5, true, none⟩)
    ∧ ((⟨100, 1, none, 0, 0, some 3600, some 60, 50, 1, 5, true, none⟩
        : SessionRow).is_completed = true)
    ∧ (add_set_to_session completedDB 1 100 ⟨10, ⟨1, 5, 10, none, false, false, none⟩⟩ 0
        = .error ⟨400, "Session already completed"⟩
      ∧ update_set_in_session completedDB 1 100 30 ⟨1, 5, 10, none, false, false, none⟩
        = .error ⟨400, "Cannot update sets in completed session"⟩
      ∧ delete_set_from_session completedDB 1 100 30
        = .error ⟨400, "Cannot delete sets from completed session"⟩
      ∧ add_exercise_to_session completedDB 1 100 ⟨10, 1⟩
        = .error ⟨400, "Cannot add exercises to completed session"⟩
      ∧ complete_workout_session completedDB 1 100 0 0
        = .error ⟨400, "Session already completed"⟩
      ∧ ∀ (op : SessionOp) (st st' : DB) (uid2 : Nat),
          applySessionOp st uid2 op = .ok st' →
          (∀ s ∈ st.workout_sessions, s.id = 100 → s.is_completed = true) →
          ∀ s ∈ st'.workout_sessions, s.id = 100 → s.is_completed = true) :=
  ⟨rfl, rfl, rfl,
    completed_session_is_terminal completedDB 1 100
      ⟨1, 0, 0, 0, "Novice", none⟩
      ⟨100, 1, none, 0, 0, some 3600, some 60, 50, 1, 5, true, none⟩
      ⟨10, ⟨1, 5, 10, none, false, false, none⟩⟩ 30 ⟨1, 5, 10, none, false, false, none⟩
      ⟨10, 1⟩ 0 0 rfl rfl rfl⟩

/-! ## Claim C4 (amended): cancellation deletes regardless of state -/

/-- C4 amended: `DELETE /sessions/\x7bid\x7d` succeeds for every session owned by
the caller, completed or not; it removes every child set row and session
exercise of the session, removes one session row with that id, and leaves
users and personal records untouched. -/
theorem cancel_deletes_any_owned_session
    (db : DB) (uid sid : Nat) (user : UserRow) (sess : SessionRow)
    (hu : findUser db uid = some user)
    (hs : findSession db sid uid = some sess) :
    ∃ db', delete_workout_session db uid sid
        = .ok ("Workout session deleted successfully", db')
      ∧ (∀ r ∈ db'.exercise_sets, r.session_id ≠ sid)
      ∧ (∀ r ∈ db'.session_exercises, r.session_id ≠ sid)
      ∧ db'.workout_sessions.countP (fun s => s.id == sid)
          = db.workout_sessions.countP (fun s => s.id == sid) - 1
      ∧ db'.users = db.users
      ∧ db'.personal_records = db.personal_records := by
  have hpred := List.find?_some hs
  have hmem := List.mem_of_find?_eq_some hs
  unfold delete_workout_session
  rw [hu, hs]
  refine ⟨_, rfl, ?_, ?_, ?_, rfl, rfl⟩
  · intro r hr
    have h2 := (List.mem_filter.mp hr).2
    simp at h2
    exact h2
  · intro r hr
    have h2 := (List.mem_filter.mp hr).2
    simp at h2
    exact h2
  · have hany : db.workout_sessions.any (fun s => s.id == sid) = true := by
      refine List.any_eq_true.mpr ⟨sess, hmem, ?_⟩
      simp only [Bool.and_eq_true, beq_iff_eq] at hpred
      simp [hpred.1]
    exact countP_removeFirst_of_any _ hany

/-- Witness for `cancel_deletes_any_owned_session` at `completedDB`. -/
theorem cancel_deletes_any_owned_session_witness :
    (findUser completedDB 1 = some ⟨1, 0, 0, 0, "Novice", none⟩)
    ∧ (findSession completedDB 100 1
        = some ⟨100, 1, none, 0, 0, some 3600, some 60, 50, 1, 5, true, none⟩)
    ∧ (∃ db', delete_workout_session completedDB 1 100
          = .ok ("Workout session deleted successfully", db')
        ∧ (∀ r ∈ db'.exercise_sets, r.session_id ≠ 100)
        ∧ (∀ r ∈ db'.session_exercises, r.session_id ≠ 100)
        ∧ db'.workout_sessions.countP (fun s => s.id == 100)
            = completedDB.workout_sessions.countP (fun s => s.id == 100) - 1
        ∧ db'.users = completedDB.users
        ∧ db'.personal_records = completedDB.personal_records) :=
  ⟨rfl, rfl,
    cancel_deletes_any_owned_session completedDB 1 100
      ⟨1, 0, 0, 0, "Novice", none⟩
      ⟨100, 1, none, 0, 0, some 3600, some 60, 50, 1, 5, true, none⟩ rfl rfl⟩

/-! ## The personal-record upsert, characterised -/

theorem findMaxWeightPR_eq (db : DB) (uid eid : Nat) :
    findMaxWeightPR db uid eid
      = db.personal_records.find?
          (fun r => r.user_id == uid && r.exercise_id == eid && r.pr_type == "MAX_WEIGHT") := rfl

theorem upsertMaxWeightPR_find (db : DB) (uid eid : Nat) (w : ℚ) (reps : ℤ)
    (sid : Nat) (t : ℤ) (prev : Option ℚ) :
    findMaxWeightPR
      (upsertMaxWeightPR db uid eid
        (fun r => { r with
          value := w
          reps := reps
          session_id := sid
          achieved_at := t
          previous_pr_value := prev })
        ⟨uid, eid, "MAX_WEIGHT", w, reps, sid, t, prev⟩) uid eid
    = some ⟨uid, eid, "MAX_WEIGHT", w, reps, sid, t, prev⟩ := by
  unfold findMaxWeightPR upsertMaxWeightPR
  simp only []
  split
  case isTrue hany =>
    obtain ⟨r0, hmem, hkey⟩ := List.any_eq_true.mp hany
    cases hfind : db.personal_records.find?
        (fun r => r.user_id == uid && r.exercise_id == eid && r.pr_type == "MAX_WEIGHT") with
    | none =>
      exact absurd hkey (by simpa using List.find?_eq_none.mp hfind r0 hmem)
    | some r1 =>
      have hkey1 := List.find?_some hfind
      have hres := find?_updateFirst_found
        (f := fun r => { r with
          value := w
          reps := reps
          session_id := sid
          achieved_at := t
          previous_pr_value := prev }) hfind
        (by simpa using hkey1)
      rw [hres]
      obtain ⟨⟨h1, h2⟩, h3⟩ : (r1.user_id = uid ∧ r1.exercise_id = eid)
          ∧ r1.pr_type = "MAX_WEIGHT" := by
        simpa [Bool.and_eq_true] using hkey1
      cases r1
      simp_all
  case isFalse hany =>
    cases hfind : db.personal_records.find?
        (fun r => r.user_id == uid && r.exercise_id == eid && r.pr_type == "MAX_WEIGHT") with
    | some r1 => exact absurd (any_of_find?_eq_some hfind) (by simpa using hany)
    | none => exact find?_append_single_of_none hfind (by simp)

/-! ## Claim C5: the MAX_WEIGHT personal-record rule of add_set -/

/-- C5: on a successful add_set, the stored set row carries exactly the
returned `is_pr`; a warmup set is never a PR and leaves the record store
untouched; a non-warmup set is a PR exactly when no (user, exercise,
MAX_WEIGHT) record exists or its weight strictly exceeds the stored value,
in which case the record is upserted with the new value, rep count,
achieving session, timestamp and prior value; otherwise the record store is
untouched. -/
theorem add_set_pr_rule
    (db : DB) (uid sid : Nat) (payload : AddSetToSession) (now : ℤ)
    (resp : ExerciseSetResponse) (db' : DB)
    (hok : add_set_to_session db uid sid payload now = .ok (resp, db')) :
    ((db'.exercise_sets.getLast?).map (fun s => s.is_pr) = some resp.is_pr)
    ∧ (payload.set_data.is_warmup = true →
        resp.is_pr = false ∧ db'.personal_records = db.personal_records)
    ∧ (payload.set_data.is_warmup = false →
        ((resp.is_pr = true ↔
          (findMaxWeightPR db uid payload.exercise_id = none
            ∨ ∃ r, findMaxWeightPR db uid payload.exercise_id = some r
                ∧ r.value < payload.set_data.weight_kg))
        ∧ (resp.is_pr = true →
            findMaxWeightPR db' uid payload.exercise_id
              = some ⟨uid, payload.exercise_id, "MAX_WEIGHT",
                      payload.set_data.weight_kg, payload.set_data.reps_completed,
                      sid, now,
                      (findMaxWeightPR db uid payload.exercise_id).map
                        (fun p => p.value)⟩)
        ∧ (resp.is_pr = false → db'.personal_records = db.personal_records))) := by
  unfold add_set_to_session at hok
  split at hok
  · exact Except.noConfusion hok
  split at hok
  · exact Except.noConfusion hok
  split at hok
  · exact Except.noConfusion hok
  split at hok
  case _ =>
    simp only [Except.ok.injEq, Prod.mk.injEq] at hok
    obtain ⟨hresp, hdb⟩ := hok
    subst hdb
    subst hresp
    refine ⟨?_, fun hw => ⟨?_, ?_⟩, fun hnw => ⟨?_, fun htrue => ?_, fun hfalse => ?_⟩⟩
    · simp only [apply_ite (fun x : DB => x.exercise_sets),
        upsertMaxWeightPR_exercise_sets, ite_self, List.getLast?_concat,
        Option.map_some']
    · simp [hw]
    · simp [hw]
    · simp only [hnw, Bool.false_eq_true, if_false, findMaxWeightPR_eq]
      cases hpr : db.personal_records.find?
          (fun r => r.user_id == uid && r.exercise_id == payload.exercise_id
            && r.pr_type == "MAX_WEIGHT") with
      | none => simp [hpr]
      | some r => simp [hpr]
    · simp only [hnw, Bool.false_eq_true, if_false, findMaxWeightPR_eq] at htrue
      simp only [findMaxWeightPR_eq,
        apply_ite (fun x : DB => x.personal_records),
        upsertMaxWeightPR_exercise_sets, ite_self, hnw, Bool.false_eq_true,
        if_false, htrue, if_true]
      have H := upsertMaxWeightPR_find db uid payload.exercise_id
        payload.set_data.weight_kg payload.set_data.reps_completed sid now
        ((findMaxWeightPR db uid payload.exercise_id).map (fun p => p.value))
      rw [findMaxWeightPR_eq] at H
      exact H
    · simp only [hnw, Bool.false_eq_true, if_false] at hfalse
      simp only [apply_ite (fun x : DB => x.personal_records), ite_self, hnw,
        Bool.false_eq_true, if_false, hfalse]
  case _ =>
    split at hok
    · exact Except.noConfusion hok
    simp only [Except.ok.injEq, Prod.mk.injEq] at hok
    obtain ⟨hresp, hdb⟩ := hok
    subst hdb
    subst hresp
    refine ⟨?_, fun hw => ⟨?_, ?_⟩, fun hnw => ⟨?_, fun htrue => ?_, fun hfalse => ?_⟩⟩
    · simp only [apply_ite (fun x : DB => x.exercise_sets),
        upsertMaxWeightPR_exercise_sets, ite_self, List.getLast?_concat,
        Option.map_some']
    · simp [hw]
    · simp [hw]
    · simp only [hnw, Bool.false_eq_true, if_false, findMaxWeightPR_eq]
      cases hpr : db.personal_records.find?
          (fun r => r.user_id == uid && r.exercise_id == payload.exercise_id
            && r.pr_type == "MAX_WEIGHT") with
      | none => simp [hpr]
      | some r => simp [hpr]
    · simp only [hnw, Bool.false_eq_true, if_false, findMaxWeightPR_eq] at htrue
      simp only [findMaxWeightPR_eq,
        apply_ite (fun x : DB => x.personal_records),
        upsertMaxWeightPR_exercise_sets, ite_self, hnw, Bool.false_eq_true,
        if_false, htrue, if_true]
      have H := upsertMaxWeightPR_find
        { db with
          session_exercises := db.session_exercises ++
            [{ id := db.nextId
               session_id := sid
               exercise_id := payload.exercise_id
               exercise_order :=
                 ((db.session_exercises.countP (fun se => se.session_id == sid)) : ℤ) + 1
               completed_at := none
               notes := none }]
          nextId := db.nextId + 1 }
        uid payload.exercise_id
        payload.set_data.weight_kg payload.set_data.reps_completed sid now
        ((findMaxWeightPR db uid payload.exercise_id).map (fun p => p.value))
      rw [findMaxWeightPR_eq] at H
      exact H
    · simp only [hnw, Bool.false_eq_true, if_false] at hfalse
      simp only [apply_ite (fun x : DB => x.personal_records), ite_self, hnw,
        Bool.false_eq_true, if_false, hfalse]

/-- Witness for `add_set_pr_rule`: a 12 kg x 3 working set on `prDB`, whose
current MAX_WEIGHT record is 10 kg. -/
theorem add_set_pr_rule_witness :
    (add_set_to_session prDB 1 100 ⟨10, ⟨2, 3, 12, none, false, false, none⟩⟩ 5
        = .ok (c5run.1, c5run.2))
    ∧ (((c5run.2.exercise_sets.getLast?).map (fun s => s.is_pr) = some c5run.1.is_pr)
      ∧ ((⟨2, 3, 12, none, false, false, none⟩ : ExerciseSetCreate).is_warmup = true →
          c5run.1.is_pr = false ∧ c5run.2.personal_records = prDB.personal_records)
      ∧ ((⟨2, 3, 12, none, false, false, none⟩ : ExerciseSetCreate).is_warmup = false →
          ((c5run.1.is_pr = true ↔
            (findMaxWeightPR prDB 1 10 = none
              ∨ ∃ r, findMaxWeightPR prDB 1 10 = some r ∧ r.value < 12))
          ∧ (c5run.1.is_pr = true →
              findMaxWeightPR c5run.2 1 10
                = some ⟨1, 10, "MAX_WEIGHT", 12, 3, 100, 5,
                        (findMaxWeightPR prDB 1 10).map (fun p => p.value)⟩)
          ∧ (c5run.1.is_pr = false →
              c5run.2.personal_records = prDB.personal_records)))) :=
  ⟨by with_unfolding_all rfl,
    add_set_pr_rule prDB 1 100 ⟨10, ⟨2, 3, 12, none, false, false, none⟩⟩ 5
      c5run.1 c5run.2 (by with_unfolding_all rfl)⟩

/-! ## Claim C9: silent degrade on an unresolvable routine reference -/

/-- C9: when the requested routine id does not resolve to a routine owned by
the caller, the session is still created, ACTIVE, with an empty roster, zero
totals and no routine name. -/
theorem start_with_bad_routine_still_creates_session
    (db : DB) (uid rid : Nat) (notes : Option String) (now nowDay : ℤ)
    (user : UserRow)
    (hu : findUser db uid = some user)
    (hr : db.routines.find? (fun r => r.id == rid && r.user_id == uid) = none) :
    ∃ resp db',
      start_workout_session db uid ⟨some rid, notes⟩ now nowDay = .ok (resp, db')
      ∧ resp.is_completed = false
      ∧ resp.exercises = []
      ∧ resp.routine_name = none
      ∧ resp.total_volume_kg = 0
      ∧ resp.total_sets = 0
      ∧ resp.total_reps = 0
      ∧ (db'.workout_sessions.getLast?).map
          (fun s => (s.is_completed, s.total_volume_kg, s.total_sets, s.total_reps))
          = some (false, 0, 0, 0) := by
  simp only [start_workout_session, hu, hr]
  exact ⟨_, _, rfl, rfl, rfl, rfl, rfl, rfl, rfl, by simp⟩

/-- Witness for `start_with_bad_routine_still_creates_session` on `baseDB`
with the unresolvable routine id 5. -/
theorem start_with_bad_routine_witness :
    (findUser baseDB 1 = some ⟨1, 0, 0, 0, "Novice", none⟩)
    ∧ (baseDB.routines.find? (fun r => r.id == 5 && r.user_id == 1) = none)
    ∧ (∃ resp db',
        start_workout_session baseDB 1 ⟨some 5, none⟩ 7 3 = .ok (resp, db')
        ∧ resp.is_completed = false
        ∧ resp.exercises = []
        ∧ resp.routine_name = none
        ∧ resp.total_volume_kg = 0
        ∧ resp.total_sets = 0
        ∧ resp.total_reps = 0
        ∧ (db'.workout_sessions.getLast?).map
            (fun s => (s.is_completed, s.total_volume_kg, s.total_sets, s.total_reps))
            = some (false, 0, 0, 0)) :=
  ⟨rfl, rfl,
    start_with_bad_routine_still_creates_session baseDB 1 5 none 7 3
      ⟨1, 0, 0, 0, "Novice", none⟩ rfl rfl⟩

/-! ## Claim C10: set edits and deletes never touch personal records -/

/-- C10: a successful update_set leaves the personal-records store
untouched and preserves the set row's `is_pr`, `set_number` and
`completed_at`; a successful delete_set leaves the personal-records store
untouched. -/
theorem set_edits_never_touch_personal_records
    (db : DB) (uid sid set_id : Nat) (d : ExerciseSetCreate)
    (resp : ExerciseSetResponse) (db' : DB) (oldSet : SetRow)
    (db2 : DB) (uid2 sid2 set_id2 : Nat) (db2' : DB)
    (hupd : update_set_in_session db uid sid set_id d = .ok (resp, db'))
    (hold : db.exercise_sets.find? (fun s => s.id == set_id) = some oldSet)
    (hdel : delete_set_from_session db2 uid2 sid2 set_id2 = .ok db2') :
    db'.personal_records = db.personal_records
    ∧ db'.exercise_sets.find? (fun s => s.id == set_id)
        = some { oldSet with
            reps_completed := d.reps_completed
            weight_kg := d.weight_kg
            rpe := d.rpe
            is_warmup := d.is_warmup
            is_failure := d.is_failure
            notes := d.notes }
    ∧ resp.is_pr = oldSet.is_pr
    ∧ resp.set_number = oldSet.set_number
    ∧ resp.completed_at = oldSet.completed_at
    ∧ db2'.personal_records = db2.personal_records := by
  have hsetid : (oldSet.id == set_id) = true := by
    simpa using List.find?_some hold
  refine ?_
  unfold update_set_in_session at hupd
  rw [hold] at hupd
  split at hupd
  · exact Except.noConfusion hupd
  split at hupd
  · exact Except.noConfusion hupd
  split at hupd
  · exact Except.noConfusion hupd
  simp only [Except.ok.injEq, Prod.mk.injEq] at hupd
  obtain ⟨hresp, hdb⟩ := hupd
  subst hdb
  subst hresp
  refine ⟨?_, ?_, rfl, rfl, rfl, ?_⟩
  · repeat' split
    all_goals rfl
  · have hfind := find?_updateFirst_found (f := fun _ => { oldSet with
        reps_completed := d.reps_completed
        weight_kg := d.weight_kg
        rpe := d.rpe
        is_warmup := d.is_warmup
        is_failure := d.is_failure
        notes := d.notes }) hold hsetid
    repeat' split
    all_goals exact hfind
  · unfold delete_set_from_session at hdel
    repeat' split at hdel
    all_goals try exact Except.noConfusion hdel
    all_goals simp only [Except.ok.injEq] at hdel
    all_goals subst hdel
    all_goals repeat' split
    all_goals rfl

/-- Witness for `set_edits_never_touch_personal_records` on `prDB`. -/
theorem set_edits_never_touch_personal_records_witness :
    (update_set_in_session prDB 1 100 30 ⟨1, 5, 5, none, false, false, none⟩
        = .ok (c10run.1, c10run.2))
    ∧ (prDB.exercise_sets.find? (fun s => s.id == 30)
        = some ⟨30, 20, 100, 10, 1, 5, 10, none, false, false, true, 0, none⟩)
    ∧ (delete_set_from_session prDB 1 100 30 = .ok c10del)
    ∧ (c10run.2.personal_records = prDB.personal_records
      ∧ c10run.2.exercise_sets.find? (fun s => s.id == 30)
          = some ⟨30, 20, 100, 10, 1, 5, 5, none, false, false, true, 0, none⟩
      ∧ c10run.1.is_pr = true
      ∧ c10run.1.set_number = 1
      ∧ c10run.1.completed_at = 0
      ∧ c10del.personal_records = prDB.personal_records) := by
  have h1 : update_set_in_session prDB 1 100 30 ⟨1, 5, 5, none, false, false, none⟩
      = .ok (c10run.1, c10run.2) := by with_unfolding_all rfl
  have h2 : prDB.exercise_sets.find? (fun s => s.id == 30)
      = some ⟨30, 20, 100, 10, 1, 5, 10, none, false, false, true, 0, none⟩ := by
    with_unfolding_all rfl
  have h3 : delete_set_from_session prDB 1 100 30 = .ok c10del := by
    with_unfolding_all rfl
  have h := set_edits_never_touch_personal_records prDB 1 100 30
    ⟨1, 5, 5, none, false, false, none⟩ c10run.1 c10run.2
    ⟨30, 20, 100, 10, 1, 5, 10, none, false, false, true, 0, none⟩
    prDB 1 100 30 c10del h1 h2 h3
  exact ⟨h1, h2, h3, h.1, h.2.1, h.2.2.1, h.2.2.2.1, h.2.2.2.2.1, h.2.2.2.2.2⟩

/-! ## What completion does to the owning user -/

theorem ite_lt_eq_max (a b : ℤ) : (if a < b then b else a) = max a b := by
  omega

theorem lastCompletedDate_updateFirst (db : DB) (uid sid : Nat)
    (f : SessionRow → SessionRow) (hf : ∀ s, (f s).id = s.id) :
    lastCompletedDate
      { db with workout_sessions :=
          updateFirst (fun s => s.id == sid) f db.workout_sessions } uid sid
    = lastCompletedDate db uid sid := by
  unfold lastCompletedDate
  congr 1
  refine filter_updateFirst_excluded _ ?_
  intro x hx
  constructor
  · simp [hx]
  · simp [hf x, hx]

/-- Core effect of a successful `complete_workout_session` on the owning
user: streak recomputed by the streak rule, longest streak topped up, the
session's volume added, and the account level recomputed from the updated
total. -/
theorem complete_ok_user_stats
    (db : DB) (uid sid : Nat) (now nowDay : ℤ) (user : UserRow) (sess : SessionRow)
    (resp : WorkoutSessionResponse) (db' : DB)
    (hu : findUser db uid = some user)
    (hs : findSession db sid uid = some sess)
    (hok : complete_workout_session db uid sid now nowDay = .ok (resp, db')) :
    ∃ u', findUser db' uid = some u'
      ∧ u'.current_streak_days
          = streakAfter (lastCompletedDate db uid sid) nowDay user.current_streak_days
      ∧ u'.longest_streak_days
          = max user.longest_streak_days u'.current_streak_days
      ∧ u'.total_volume_kg = user.total_volume_kg + sess.total_volume_kg
      ∧ u'.account_level
          = computeAccountLevel (user.total_volume_kg + sess.total_volume_kg) := by
  unfold complete_workout_session at hok
  simp only [hu, hs] at hok
  split at hok
  · exact Except.noConfusion hok
  split at hok
  case _ r hget =>
    simp only [Except.ok.injEq, Prod.mk.injEq] at hok
    obtain ⟨-, hdb⟩ := hok
    subst hdb
    have hbeq : (user.id == uid) = true :=
      List.find?_some (p := fun u : UserRow => u.id == uid) hu
    have hmark := lastCompletedDate_updateFirst db uid sid
      (fun s => { s with
        end_time := some now
        duration_minutes := some ((now - sess.start_time) / 60)
        is_completed := true })
      (fun s => rfl)
    cases hrid : sess.routine_id with
    | none =>
      simp only [hrid]
      by_cases hlvl :
        computeAccountLevel (user.total_volume_kg + sess.total_volume_kg)
          ≠ user.account_level
      · rw [if_pos hlvl]
        refine ⟨_,
          find?_updateFirst_found (find?_updateFirst_found hu hbeq) hbeq,
          ?_, ?_, rfl, rfl⟩
        · show streakAfter _ nowDay user.current_streak_days
            = streakAfter _ nowDay user.current_streak_days
          rw [hmark]
        · exact ite_lt_eq_max user.longest_streak_days _
      · rw [if_neg hlvl]
        refine ⟨_, find?_updateFirst_found hu hbeq, ?_, ?_, rfl, ?_⟩
        · show streakAfter _ nowDay user.current_streak_days
            = streakAfter _ nowDay user.current_streak_days
          rw [hmark]
        · exact ite_lt_eq_max user.longest_streak_days _
        · exact (not_ne_iff.mp hlvl).symm
    | some rid =>
      simp only [hrid]
      by_cases hlvl :
        computeAccountLevel (user.total_volume_kg + sess.total_volume_kg)
          ≠ user.account_level
      · rw [if_pos hlvl]
        refine ⟨_,
          find?_updateFirst_found (find?_updateFirst_found hu hbeq) hbeq,
          ?_, ?_, rfl, rfl⟩
        · show streakAfter _ nowDay user.current_streak_days
            = streakAfter _ nowDay user.current_streak_days
          rw [hmark]
        · exact ite_lt_eq_max user.longest_streak_days _
      · rw [if_neg hlvl]
        refine ⟨_, find?_updateFirst_found hu hbeq, ?_, ?_, rfl, ?_⟩
        · show streakAfter _ nowDay user.current_streak_days
            = streakAfter _ nowDay user.current_streak_days
          rw [hmark]
        · exact ite_lt_eq_max user.longest_streak_days _
        · exact (not_ne_iff.mp hlvl).symm
  case _ e hget => exact Except.noConfusion hok

/-! ## Claims C6 and C7: streak and level recalculation at completion -/

/-- C6: a successful completion recomputes the user's streak by the calendar
rule — 1 with no prior completed session, +1 when the most recent prior
completed session is exactly one day old, reset to 1 when it is older,
unchanged when it is from today — and then tops up the longest streak, so
the longest streak is never below the current one. -/
theorem complete_streak_rule
    (db : DB) (uid sid : Nat) (now nowDay : ℤ) (user : UserRow) (sess : SessionRow)
    (resp : WorkoutSessionResponse) (db' : DB)
    (hu : findUser db uid = some user)
    (hs : findSession db sid uid = some sess)
    (hok : complete_workout_session db uid sid now nowDay = .ok (resp, db')) :
    ∃ u', findUser db' uid = some u'
      ∧ (lastCompletedDate db uid sid = none → u'.current_streak_days = 1)
      ∧ (∀ d, lastCompletedDate db uid sid = some d → nowDay - d = 1 →
          u'.current_streak_days = user.current_streak_days + 1)
      ∧ (∀ d, lastCompletedDate db uid sid = some d → 1 < nowDay - d →
          u'.current_streak_days = 1)
      ∧ (∀ d, lastCompletedDate db uid sid = some d → nowDay - d = 0 →
          u'.current_streak_days = user.current_streak_days)
      ∧ u'.longest_streak_days = max user.longest_streak_days u'.current_streak_days
      ∧ u'.current_streak_days ≤ u'.longest_streak_days
      ∧ user.longest_streak_days ≤ u'.longest_streak_days := by
  obtain ⟨u', h1, h2, h3, -, -⟩ :=
    complete_ok_user_stats db uid sid now nowDay user sess resp db' hu hs hok
  refine ⟨u', h1, ?_, ?_, ?_, ?_, h3, ?_, ?_⟩
  · intro hnone
    rw [h2, hnone]
    rfl
  · intro d hd hdiff
    rw [h2, hd]
    simp [streakAfter, hdiff]
  · intro d hd hdiff
    rw [h2, hd]
    have h1d : ¬ (nowDay - d = 1) := by omega
    simp [streakAfter, h1d, hdiff]
  · intro d hd hdiff
    rw [h2, hd]
    have h1d : ¬ (nowDay - d = 1) := by omega
    have h2d : ¬ (1 < nowDay - d) := by omega
    simp [streakAfter, h1d, h2d]
  · rw [h3]
    exact le_max_right _ _
  · rw [h3]
    exact le_max_left _ _

/-- Witness for `complete_streak_rule`: completing the only session of
`baseDB` (no prior completed sessions). -/
theorem complete_streak_rule_witness :
    (findUser baseDB 1 = some ⟨1, 0, 0, 0, "Novice", none⟩)
    ∧ (findSession baseDB 100 1
        = some ⟨100, 1, none, 0, 0, none, none, 0, 0, 0, false, none⟩)
    ∧ (complete_workout_session baseDB 1 100 120 4 = .ok (c6run.1, c6run.2))
    ∧ (∃ u', findUser c6run.2 1 = some u'
      ∧ (lastCompletedDate baseDB 1 100 = none → u'.current_streak_days = 1)
      ∧ (∀ d, lastCompletedDate baseDB 1 100 = some d → 4 - d = 1 →
          u'.current_streak_days = (0 : ℤ) + 1)
      ∧ (∀ d, lastCompletedDate baseDB 1 100 = some d → 1 < 4 - d →
          u'.current_streak_days = 1)
      ∧ (∀ d, lastCompletedDate baseDB 1 100 = some d → 4 - d = 0 →
          u'.current_streak_days = 0)
      ∧ u'.longest_streak_days = max 0 u'.current_streak_days
      ∧ u'.current_streak_days ≤ u'.longest_streak_days
      ∧ (0 : ℤ) ≤ u'.longest_streak_days) :=
  ⟨rfl, rfl, by with_unfolding_all rfl,
    complete_streak_rule baseDB 1 100 120 4
      ⟨1, 0, 0, 0, "Novice", none⟩
      ⟨100, 1, none, 0, 0, none, none, 0, 0, 0, false, none⟩
      c6run.1 c6run.2 rfl rfl (by with_unfolding_all rfl)⟩

/-- C7: after a successful completion the stored account level equals the
five-tier threshold function of the user's updated total volume, with the
documented values at the exact boundaries. -/
theorem complete_level_rule
    (db : DB) (uid sid : Nat) (now nowDay : ℤ) (user : UserRow) (sess : SessionRow)
    (resp : WorkoutSessionResponse) (db' : DB)
    (hu : findUser db uid = some user)
    (hs : findSession db sid uid = some sess)
    (hok : complete_workout_session db uid sid now nowDay = .ok (resp, db')) :
    (∃ u', findUser db' uid = some u'
      ∧ u'.total_volume_kg = user.total_volume_kg + sess.total_volume_kg
      ∧ u'.account_level = computeAccountLevel u'.total_volume_kg)
    ∧ computeAccountLevel 9999 = "Novice"
    ∧ computeAccountLevel 10000 = "Beginner"
    ∧ computeAccountLevel 49999 = "Beginner"
    ∧ computeAccountLevel 50000 = "Intermediate"
    ∧ computeAccountLevel 149999 = "Intermediate"
    ∧ computeAccountLevel 150000 = "Advanced"
    ∧ computeAccountLevel 499999 = "Advanced"
    ∧ computeAccountLevel 500000 = "Elite" := by
  obtain ⟨u', h1, -, -, h4, h5⟩ :=
    complete_ok_user_stats db uid sid now nowDay user sess resp db' hu hs hok
  refine ⟨⟨u', h1, h4, by rw [h4, h5]⟩, ?_, ?_, ?_, ?_, ?_, ?_, ?_, ?_⟩
  all_goals norm_num [computeAccountLevel]

/-- Witness for `complete_level_rule` at `baseDB`. -/
theorem complete_level_rule_witness :
    (findUser baseDB 1 = some ⟨1, 0, 0, 0, "Novice", none⟩)
    ∧ (findSession baseDB 100 1
        = some ⟨100, 1, none, 0, 0, none, none, 0, 0, 0, false, none⟩)
    ∧ (complete_workout_session baseDB 1 100 120 4 = .ok (c6run.1, c6run.2))
    ∧ ((∃ u', findUser c6run.2 1 = some u'
        ∧ u'.total_volume_kg = (0 : ℚ) + 0
        ∧ u'.account_level = computeAccountLevel u'.total_volume_kg)
      ∧ computeAccountLevel 9999 = "Novice"
      ∧ computeAccountLevel 10000 = "Beginner"
      ∧ computeAccountLevel 49999 = "Beginner"
      ∧ computeAccountLevel 50000 = "Intermediate"
      ∧ computeAccountLevel 149999 = "Intermediate"
      ∧ computeAccountLevel 150000 = "Advanced"
      ∧ computeAccountLevel 499999 = "Advanced"
      ∧ computeAccountLevel 500000 = "Elite") :=
  ⟨rfl, rfl, by with_unfolding_all rfl,
    complete_level_rule baseDB 1 100 120 4
      ⟨1, 0, 0, 0, "Novice", none⟩
      ⟨100, 1, none, 0, 0, none, none, 0, 0, 0, false, none⟩
      c6run.1 c6run.2 rfl rfl (by with_unfolding_all rfl)⟩

/-! ## Claim C8: the roster of a routine session -/

/-- C8 counterexample: on `c8db` a set is logged for exercise 20, which was
added to the session ad hoc and is not part of routine 5; `get_session`
returns a roster containing only the routine's exercise 10, so the claim
that every exercise with logged sets appears in the roster is false. -/
theorem get_session_drops_ad_hoc_exercise :
    (c8db.exercise_sets.map (fun s => s.exercise_id) = [20])
    ∧ (c8run.exercises.map (fun e => e.exercise_id) = [10])
    ∧ ¬ (20 ∈ c8run.exercises.map (fun e => e.exercise_id)) :=
  of_decide_eq_true (by with_unfolding_all rfl)

theorem rosterFromRoutineOnly_eq_merged (db : DB) (rexs : List RoutineExerciseRow) :
    rosterFromRoutineOnly db rexs = rosterMerged db [] rexs := by
  induction rexs with
  | nil => rfl
  | cons rex rest ih =>
    cases hfe : db.exercises.find? (fun e => e.id == rex.exercise_id) with
    | none => simp [rosterFromRoutineOnly, rosterMerged, hfe, ih]
    | some e => simp [rosterFromRoutineOnly, rosterMerged, hfe, findLast?, ih]

theorem rosterMerged_map_ids (db : DB) (ses : List SessionExerciseRow)
    (rexs : List RoutineExerciseRow) :
    (rosterMerged db ses rexs).map (fun e => e.exercise_id)
      = rexs.filterMap (fun rex =>
          (db.exercises.find? (fun e => e.id == rex.exercise_id)).map
            (fun _ => rex.exercise_id)) := by
  induction rexs with
  | nil => rfl
  | cons rex rest ih =>
    cases hfe : db.exercises.find? (fun e => e.id == rex.exercise_id) with
    | none => simp [rosterMerged, hfe, ih]
    | some e =>
      cases hfl : findLast? (fun se => se.exercise_id == rex.exercise_id) ses with
      | some se => simp [rosterMerged, hfe, hfl, ih]
      | none => simp [rosterMerged, hfe, hfl, ih, routineEntry]

theorem rosterMerged_no_se_empty_sets (db : DB) (ses : List SessionExerciseRow)
    (rexs : List RoutineExerciseRow) :
    ∀ e ∈ rosterMerged db ses rexs,
      findLast? (fun se => se.exercise_id == e.exercise_id) ses = none →
      e.sets = [] := by
  induction rexs with
  | nil => intro e he; simp [rosterMerged] at he
  | cons rex rest ih =>
    intro e he hnone
    cases hfe : db.exercises.find? (fun e2 => e2.id == rex.exercise_id) with
    | none =>
      rw [rosterMerged, hfe] at he
      exact ih e he hnone
    | some ex =>
      cases hfl : findLast? (fun se => se.exercise_id == rex.exercise_id) ses with
      | some se =>
        rw [rosterMerged, hfe, hfl] at he
        rcases List.mem_cons.mp he with rfl | he2
        · exact absurd hnone (by simp [hfl])
        · exact ih e he2 hnone
      | none =>
        rw [rosterMerged, hfe, hfl] at he
        rcases List.mem_cons.mp he with rfl | he2
        · rfl
        · exact ih e he2 hnone

theorem rosterMerged_matched_sets (db : DB) (ses : List SessionExerciseRow)
    (rexs : List RoutineExerciseRow) :
    ∀ e ∈ rosterMerged db ses rexs, ∀ se,
      findLast? (fun se2 => se2.exercise_id == e.exercise_id) ses = some se →
      e.id = se.id ∧ e.completed_at = se.completed_at
      ∧ e.sets = setsOfSessionExercise db se.id := by
  induction rexs with
  | nil => intro e he; simp [rosterMerged] at he
  | cons rex rest ih =>
    intro e he se hse
    cases hfe : db.exercises.find? (fun e2 => e2.id == rex.exercise_id) with
    | none =>
      rw [rosterMerged, hfe] at he
      exact ih e he se hse
    | some ex =>
      cases hfl : findLast? (fun se2 => se2.exercise_id == rex.exercise_id) ses with
      | some se0 =>
        rw [rosterMerged, hfe, hfl] at he
        rcases List.mem_cons.mp he with rfl | he2
        · have hse2 : findLast? (fun se2 => se2.exercise_id == rex.exercise_id) ses
              = some se := hse
          rw [hfl] at hse2
          obtain rfl : se0 = se := Option.some.inj hse2
          exact ⟨rfl, rfl, rfl⟩
        · exact ih e he2 se hse
      | none =>
        rw [rosterMerged, hfe, hfl] at he
        rcases List.mem_cons.mp he with rfl | he2
        · have hse2 : findLast? (fun se2 => se2.exercise_id == rex.exercise_id) ses
              = some se := hse
          rw [hfl] at hse2
          exact Option.noConfusion hse2
        · exact ih e he2 se hse

theorem rosterMerged_planning (db : DB) (ses : List SessionExerciseRow)
    (rexs : List RoutineExerciseRow) :
    ∀ e ∈ rosterMerged db ses rexs, ∃ rex ∈ rexs,
      rex.exercise_id = e.exercise_id
      ∧ e.sets_planned = rex.sets_planned
      ∧ e.reps_planned = rex.reps_planned
      ∧ e.reps_min = rex.reps_min
      ∧ e.reps_max = rex.reps_max
      ∧ e.target_weight_kg = rex.target_weight_kg
      ∧ e.rest_seconds = some (rex.rest_seconds.getD 90) := by
  induction rexs with
  | nil => intro e he; simp [rosterMerged] at he
  | cons rex rest ih =>
    intro e he
    cases hfe : db.exercises.find? (fun e2 => e2.id == rex.exercise_id) with
    | none =>
      rw [rosterMerged, hfe] at he
      obtain ⟨r, hr1, hr2⟩ := ih e he
      exact ⟨r, List.mem_cons_of_mem _ hr1, hr2⟩
    | some ex =>
      cases hfl : findLast? (fun se => se.exercise_id == rex.exercise_id) ses with
      | some se =>
        rw [rosterMerged, hfe, hfl] at he
        rcases List.mem_cons.mp he with rfl | he2
        · exact ⟨rex, List.mem_cons_self _ _, rfl, rfl, rfl, rfl, rfl, rfl, rfl⟩
        · obtain ⟨r, hr1, hr2⟩ := ih e he2
          exact ⟨r, List.mem_cons_of_mem _ hr1, hr2⟩
      | none =>
        rw [rosterMerged, hfe, hfl] at he
        rcases List.mem_cons.mp he with rfl | he2
        · exact ⟨rex, List.mem_cons_self _ _, rfl, rfl, rfl, rfl, rfl, rfl, rfl⟩
        · obtain ⟨r, hr1, hr2⟩ := ih e he2
          exact ⟨r, List.mem_cons_of_mem _ hr1, hr2⟩

/-- C8 amended: for a session with a routine, the roster returned by
`get_session` is exactly the routine's exercise list (ordered, capped at 50,
restricted to catalog hits) — an exercise with no matching session exercise
shows an empty set list, an exercise whose matching session exercise exists
appears with exactly that session exercise's logged sets, every entry
carries the routine's planning numbers, and ad-hoc exercises outside the
routine never appear. -/
theorem get_session_roster_is_routine_list
    (db : DB) (uid sid rid : Nat) (sess : SessionRow) (resp : WorkoutSessionResponse)
    (hs : findSession db sid uid = some sess)
    (hr : sess.routine_id = some rid)
    (hok : get_session db uid sid = .ok resp) :
    resp.exercises.map (fun e => e.exercise_id)
      = (routineExercisesOf db rid).filterMap (fun rex =>
          (db.exercises.find? (fun e => e.id == rex.exercise_id)).map
            (fun _ => rex.exercise_id))
    ∧ (∀ e ∈ resp.exercises,
        findLast? (fun se => se.exercise_id == e.exercise_id)
          (sessionExercisesOf db sid) = none → e.sets = [])
    ∧ (∀ e ∈ resp.exercises, ∀ se,
        findLast? (fun se2 => se2.exercise_id == e.exercise_id)
          (sessionExercisesOf db sid) = some se →
        e.id = se.id ∧ e.completed_at = se.completed_at
        ∧ e.sets = setsOfSessionExercise db se.id)
    ∧ (∀ e ∈ resp.exercises, ∃ rex ∈ routineExercisesOf db rid,
        rex.exercise_id = e.exercise_id
        ∧ e.sets_planned = rex.sets_planned
        ∧ e.reps_planned = rex.reps_planned
        ∧ e.reps_min = rex.reps_min
        ∧ e.reps_max = rex.reps_max
        ∧ e.target_weight_kg = rex.target_weight_kg
        ∧ e.rest_seconds = some (rex.rest_seconds.getD 90)) := by
  unfold get_session at hok
  split at hok
  · exact Except.noConfusion hok
  split at hok
  · exact Except.noConfusion hok
  rename_i u hu2 o session hsession
  rw [hs] at hsession
  have hss := Option.some.inj hsession
  subst hss
  simp only [Except.ok.injEq] at hok
  subst hok
  simp only [hr]
  by_cases hemp : (sessionExercisesOf db sid).isEmpty
  · have hnil : sessionExercisesOf db sid = [] := List.isEmpty_iff.mp hemp
    simp only [hemp, if_true, rosterFromRoutineOnly_eq_merged]
    refine ⟨rosterMerged_map_ids db [] _, ?_, ?_, ?_⟩
    · intro e he hnone
      exact rosterMerged_no_se_empty_sets db [] _ e he rfl
    · intro e he se hse
      rw [hnil] at hse
      simp [findLast?] at hse
    · exact rosterMerged_planning db [] _
  · simp only [hemp, if_false]
    exact ⟨rosterMerged_map_ids db _ _, rosterMerged_no_se_empty_sets db _ _,
      rosterMerged_matched_sets db _ _, rosterMerged_planning db _ _⟩

/-- Witness for `get_session_roster_is_routine_list` at `c8db2`, whose
routine exercise 10 has a matching session exercise with a logged set. -/
theorem get_session_roster_witness :
    (findSession c8db2 100 1
        = some ⟨100, 1, some 5, 0, 0, none, none, 100, 2, 10, false, none⟩)
    ∧ ((⟨100, 1, some 5, 0, 0, none, none, 100, 2, 10, false, none⟩
        : SessionRow).routine_id = some 5)
    ∧ (get_session c8db2 1 100 = .ok c8run2)
    ∧ (c8run2.exercises.map (fun e => e.exercise_id)
        = (routineExercisesOf c8db2 5).filterMap (fun rex =>
            (c8db2.exercises.find? (fun e => e.id == rex.exercise_id)).map
              (fun _ => rex.exercise_id))
      ∧ (∀ e ∈ c8run2.exercises,
          findLast? (fun se => se.exercise_id == e.exercise_id)
            (sessionExercisesOf c8db2 100) = none → e.sets = [])
      ∧ (∀ e ∈ c8run2.exercises, ∀ se,
          findLast? (fun se2 => se2.exercise_id == e.exercise_id)
            (sessionExercisesOf c8db2 100) = some se →
          e.id = se.id ∧ e.completed_at = se.completed_at
          ∧ e.sets = setsOfSessionExercise c8db2 se.id)
      ∧ (∀ e ∈ c8run2.exercises, ∃ rex ∈ routineExercisesOf c8db2 5,
          rex.exercise_id = e.exercise_id
          ∧ e.sets_planned = rex.sets_planned
          ∧ e.reps_planned = rex.reps_planned
          ∧ e.reps_min = rex.reps_min
          ∧ e.reps_max = rex.reps_max
          ∧ e.target_weight_kg = rex.target_weight_kg
          ∧ e.rest_seconds = some (rex.rest_seconds.getD 90))) :=
  ⟨rfl, rfl, by with_unfolding_all rfl,
    get_session_roster_is_routine_list c8db2 1 100 5
      ⟨100, 1, some 5, 0, 0, none, none, 100, 2, 10, false, none⟩
      c8run2 rfl rfl (by with_unfolding_all rfl)⟩

end TodoFit
